import Mathlib

/-!
Verification of the pyxlutils field-validation pipeline.

This file shallowly embeds the code of `src/fields.py`, `src/utils.py` and
`src/constants.py`: Python values become an inductive `PyVal`, Python
exceptions become `PyExn`, and the mutable per-field state of the descriptor
becomes an explicit `FieldState` threaded through every pipeline step.
Machine-level details that the code never observes (IEEE float rounding,
decimal context precision) are abstracted and noted at their definitions;
no theorem below depends on them.
-/

set_option maxRecDepth 4000

namespace Pyxl

/-! ## String helpers (Python `str` methods used by the code) -/

/-- Python whitespace characters stripped by `str.strip()`. -/
def pyIsSpace (c : Char) : Bool :=
  c = ' ' ∨ c = '\t' ∨ c = '\n' ∨ c = '\r' ∨ c = '\x0b' ∨ c = '\x0c'

/-- Python `str.strip()` on a list of characters. -/
def stripChars (cs : List Char) : List Char :=
  (((cs.dropWhile pyIsSpace).reverse).dropWhile pyIsSpace).reverse

/-- Python `str.strip()`. -/
def pyStrip (s : String) : String :=
  ⟨stripChars s.data⟩

/-- Python `str.lower()` (ASCII range; every token the code compares is ASCII). -/
def pyLower (s : String) : String :=
  ⟨s.data.map Char.toLower⟩

/-- Decimal digits of a natural number, most significant first. -/
def natDigits (n : Nat) : List Char :=
  (Nat.toDigits 10 n)

/-- `"%02d"`: decimal rendering left-padded with zeros to width two. -/
def pad2 (n : Nat) : String :=
  let ds := natDigits n
  ⟨List.replicate (2 - ds.length) '0' ++ ds⟩

/-- Value of a list of decimal digit characters. -/
def digitsToNat (cs : List Char) : Nat :=
  cs.foldl (fun a c => a * 10 + (c.toNat - '0'.toNat)) 0

/-- `str.ljust(6, "0")`: right-pad with zeros to length six. -/
def ljust6 (s : String) : String :=
  ⟨s.data ++ List.replicate (6 - s.data.length) '0'⟩

/-! ## Python exceptions

Each constructor carries a short tag abridging the runtime message, so that
distinct raise sites stay distinguishable (e.g. the `AttributeError` from
`defaultdict.append` versus the one from `None.as_tuple()`). -/

inductive PyExn : Type where
  | typeError (tag : String)
  | valueError (tag : String)
  | attributeError (tag : String)
  | keyError (tag : String)
  | invalidOperation
  | overflowError
  /-- The repository's `ValidationError`, raised by validators/preprocessors. -/
  | validationError
  /-- `raise x` where `x` is a genuine exception object (never produced by
  the embedded code: `_make_error` returns `None`). -/
  | raisedError (tag : String)
deriving DecidableEq, Repr

/-- Result of a Python computation: a value or a propagating exception. -/
inductive PRes (α : Type) : Type where
  | ok (a : α)
  | exn (e : PyExn)
deriving DecidableEq, Repr

/-! ## Decimals (`decimal.Decimal`)

A finite decimal is `coeff * 10 ^ exp` with the exponent kept explicitly,
matching `Decimal.as_tuple()` (sign folded into `coeff`).  Context precision
is not modelled (no operation here ever exceeds it). -/

inductive Dec : Type where
  | fin (coeff : Int) (exp : Int)
  | posInf
  | negInf
  | nan
deriving DecidableEq, Repr

/-- `Decimal.is_finite()`. -/
def Dec.isFinite : Dec → Bool
  | .fin _ _ => true
  | _ => false

/-- Rational value of a finite decimal. -/
def Dec.toRat : Dec → Rat
  | .fin m e => if 0 ≤ e then (m : Rat) * (10 : Rat) ^ e.toNat else (m : Rat) / (10 : Rat) ^ (-e).toNat
  | _ => 0

/-- Rounding modes used by `Decimal.quantize` here: `ROUND_HALF_UP`, and the
context default `ROUND_HALF_EVEN` used when `rounding=None`. -/
inductive Rounding : Type where
  | halfUp
  | halfEven
deriving DecidableEq, Repr

/-- Divide `n` by `d > 0` rounding half away from zero (`ROUND_HALF_UP`). -/
def divHalfUp (n : Int) (d : Int) : Int :=
  let q := n.tdiv d
  let r := (n.tmod d).natAbs
  if 2 * r ≥ d.natAbs then (if n < 0 then q - 1 else q + 1) else q

/-- Divide `n` by `d > 0` rounding half to even (`ROUND_HALF_EVEN`). -/
def divHalfEven (n : Int) (d : Int) : Int :=
  let q := n.tdiv d
  let r := (n.tmod d).natAbs
  if 2 * r > d.natAbs then (if n < 0 then q - 1 else q + 1)
  else if 2 * r = d.natAbs then
    (if q % 2 = 0 then q else (if n < 0 then q - 1 else q + 1))
  else q

/-- `Decimal.quantize(places, rounding)` for finite operands: rescale the
coefficient to the exponent of `places`. -/
def Dec.quantize (v : Dec) (places : Dec) (r : Rounding) : Dec :=
  match v, places with
  | .fin m e, .fin _ e2 =>
      if e ≥ e2 then .fin (m * 10 ^ (e - e2).toNat) e2
      else
        let d : Int := 10 ^ (e2 - e).toNat
        .fin (match r with
              | .halfUp => divHalfUp m d
              | .halfEven => divHalfEven m d) e2
  | v, _ => v

/-- Comparison of finite decimal values (`<` on `Decimal`). -/
def Dec.lt (a b : Dec) : PRes Bool :=
  match a, b with
  | .nan, _ => .exn .invalidOperation
  | _, .nan => .exn .invalidOperation
  | .fin m e, .fin m2 e2 => .ok (decide (Dec.toRat (.fin m e) < Dec.toRat (.fin m2 e2)))
  | .negInf, .negInf => .ok false
  | .negInf, _ => .ok true
  | _, .negInf => .ok false
  | .posInf, _ => .ok false
  | .fin _ _, .posInf => .ok true

/-- Render the digits of `|coeff|` with a decimal point `p` digits from the
right (helper for decimal string forms). -/
def decDigitsPoint (n : Nat) (p : Nat) : String :=
  let ds := natDigits n
  let ds := List.replicate (p + 1 - ds.length) '0' ++ ds
  ⟨ds.take (ds.length - p) ++ (if p = 0 then [] else '.' :: ds.drop (ds.length - p))⟩

/-- Python `Decimal.to_eng_string()` / `str(Decimal)`, modelled for the
non-scientific finite forms that occur in this development (exponent ≤ 0;
the scientific-notation branch is approximated by plain digits). -/
def Dec.toPyString : Dec → String
  | .fin m e =>
      let sign := if m < 0 then "-" else ""
      if 0 ≤ e then sign ++ ⟨natDigits m.natAbs ++ List.replicate e.toNat '0'⟩
      else sign ++ decDigitsPoint m.natAbs (-e).toNat
  | .posInf => "Infinity"
  | .negInf => "-Infinity"
  | .nan => "NaN"

/-! ### Parsing `Decimal(string)` -/

/-- Take a run of decimal digits. -/
def spanDigits (cs : List Char) : List Char × List Char :=
  (cs.takeWhile Char.isDigit, cs.dropWhile Char.isDigit)

/-- Parse an optional sign, returning `-1` or `1` and the rest. -/
def parseSign (cs : List Char) : Int × List Char :=
  match cs with
  | '+' :: r => (1, r)
  | '-' :: r => (-1, r)
  | r => (1, r)

/-- Parse the numeric part `digits[.digits]` of a decimal literal:
coefficient and exponent, or `none` when malformed. -/
def parseDecBody (cs : List Char) : Option (Nat × Int × List Char) :=
  let (ip, r) := spanDigits cs
  match r with
  | '.' :: r2 =>
      let (fp, r3) := spanDigits r2
      if ip.isEmpty ∧ fp.isEmpty then none
      else some (digitsToNat (ip ++ fp), -(fp.length : Int), r3)
  | _ => if ip.isEmpty then none else some (digitsToNat ip, 0, r)

/-- Parse an optional exponent suffix `[eE][sign]digits`. -/
def parseExpSuffix (cs : List Char) : Option (Int × List Char) :=
  match cs with
  | 'e' :: r | 'E' :: r =>
      let (s, r2) := parseSign r
      let (ds, r3) := spanDigits r2
      if ds.isEmpty then none else some (s * (digitsToNat ds : Int), r3)
  | r => some (0, r)

/-- `Decimal(string)`: sign, digits, optional fraction and exponent, or the
special values; surrounding whitespace is allowed.  Malformed input raises
`InvalidOperation`. -/
def decFromString (s : String) : PRes Dec :=
  let cs := stripChars s.data
  let (sg, r) := parseSign cs
  let low := pyLower ⟨r⟩
  if low = "inf" ∨ low = "infinity" then .ok (if sg < 0 then .negInf else .posInf)
  else if low = "nan" then .ok .nan
  else
    match parseDecBody r with
    | none => .exn .invalidOperation
    | some (coeff, e, rest) =>
        match parseExpSuffix rest with
        | none => .exn .invalidOperation
        | some (e2, rest2) =>
            if rest2.isEmpty then .ok (.fin (sg * (coeff : Int)) (e + e2))
            else .exn .invalidOperation

/-! ## Timezones and datetimes (`datetime` module, `src/utils.py`) -/

/-- A `tzinfo` value: `datetime.timezone.utc`, or a named fixed offset as
built by `get_fixed_timezone`. -/
inductive Tz : Type where
  | utc
  | fixed (minutes : Int) (name : String)
deriving DecidableEq, Repr

/-- A `datetime.datetime` value. -/
structure DateTimeV : Type where
  year : Nat
  month : Nat
  day : Nat
  hour : Nat
  minute : Nat
  second : Nat
  microsecond : Nat
  tzinfo : Option Tz
deriving DecidableEq, Repr

/-- Days in a month of the proleptic Gregorian calendar (as `datetime` uses). -/
def daysInMonth (y m : Nat) : Nat :=
  if m = 2 then
    if y % 4 = 0 ∧ (y % 100 ≠ 0 ∨ y % 400 = 0) then 29 else 28
  else if m = 4 ∨ m = 6 ∨ m = 9 ∨ m = 11 then 30
  else 31

/-- The `datetime.datetime(...)` constructor: range-checks every component
(raising `ValueError` as CPython does) before building the value. -/
def mkDatetime (y mo d h mi s us : Nat) (tz : Option Tz) : PRes DateTimeV :=
  if 1 ≤ y ∧ y ≤ 9999 ∧ 1 ≤ mo ∧ mo ≤ 12 ∧ 1 ≤ d ∧ d ≤ daysInMonth y mo ∧
     h ≤ 23 ∧ mi ≤ 59 ∧ s ≤ 59 ∧ us ≤ 999999 then
    .ok ⟨y, mo, d, h, mi, s, us, tz⟩
  else .exn (.valueError "datetime-range")

/-- `utils.get_fixed_timezone(offset)` for an integer number of minutes:
builds the `"+HHMM"`/`"-HHMM"` name and a fixed-offset timezone.  The
`datetime.timezone` constructor it calls rejects offsets not strictly
between -24 and +24 hours with `ValueError`. -/
def get_fixed_timezone (offset : Int) : PRes Tz :=
  let sign := if offset < 0 then "-" else "+"
  let hhmm := pad2 (offset.natAbs / 60) ++ pad2 (offset.natAbs % 60)
  let name := sign ++ hhmm
  if -1440 < offset ∧ offset < 1440 then .ok (.fixed offset name)
  else .exn (.valueError "timezone-range")

/-! ### The `_iso8601_datetime_re` pattern

The regular expression is modelled as an ordered backtracking matcher: each
component returns every admissible split in the order the regex engine
would try them (greedy first), and the overall match is the first split
consuming the whole string. -/

/-- The captured groups of `_iso8601_datetime_re`. -/
structure IsoGroups : Type where
  year : String
  month : String
  day : String
  hour : String
  minute : String
  second : Option String
  microsecond : Option String
  tzinfo : Option String
deriving DecidableEq, Repr

/-- Exactly `n` decimal digits. -/
def takeDigits : Nat → List Char → Option (List Char × List Char)
  | 0, cs => some ([], cs)
  | n + 1, c :: cs => if c.isDigit then (takeDigits n cs).map (fun p => (c :: p.1, p.2)) else none
  | _ + 1, [] => none

/-- `\d{1,u}` greedily: longest alternatives first. -/
def digitAlts (u : Nat) (cs : List Char) : List (String × List Char) :=
  ((List.range u).map (fun k => u - k)).filterMap fun n =>
    (takeDigits n cs).map fun p => (⟨p.1⟩, p.2)

/-- A single literal character. -/
def litAlts (c : Char) (cs : List Char) : List (List Char) :=
  match cs with
  | c2 :: r => if c2 = c then [r] else []
  | [] => []

/-- `(?P<tzinfo>Z|[+-]\d{2}(?::?\d{2})?)` in regex alternation order. -/
def tzAlts (cs : List Char) : List (String × List Char) :=
  (match cs with
   | 'Z' :: r => [("Z", r)]
   | _ => []) ++
  (match cs with
   | c :: r =>
       if c = '+' ∨ c = '-' then
         match takeDigits 2 r with
         | some (hh, r2) =>
             (match r2 with
              | ':' :: r3 =>
                  match takeDigits 2 r3 with
                  | some (mm, r4) => [(⟨c :: hh ++ ':' :: mm⟩, r4)]
                  | none => []
              | _ => []) ++
             (match takeDigits 2 r2 with
              | some (mm, r4) => [(⟨c :: hh ++ mm⟩, r4)]
              | none => []) ++
             [(⟨c :: hh⟩, r2)]
         | none => []
       else []
   | [] => [])

/-- `(?:\.(?P<microsecond>\d{1,6})\d{0,6})?`: the captured fraction digits
and the rest, with the up-to-six surplus digits consumed greedily. -/
def fracAlts (cs : List Char) : List (Option String × List Char) :=
  (match cs with
   | '.' :: r =>
       (digitAlts 6 r).flatMap fun (mic, r2) =>
         ((List.range 7).map (fun k => 6 - k)).filterMap fun n =>
           (takeDigits n r2).map fun p => (some mic, p.2)
   | _ => []) ++ [(none, cs)]

/-- `(?::(?P<second>\d{1,2})(?:\.(...))?)?`. -/
def secAlts (cs : List Char) : List ((Option String × Option String) × List Char) :=
  (match cs with
   | ':' :: r =>
       (digitAlts 2 r).flatMap fun (sec, r2) =>
         (fracAlts r2).map fun (mic, r3) => ((some sec, mic), r3)
   | _ => []) ++ [((none, none), cs)]

/-- All matches of the full pattern against the whole string, in backtracking
order; `re.match` with the trailing `$` succeeds iff this list is nonempty. -/
def isoMatches (cs : List Char) : List IsoGroups :=
  (match takeDigits 4 cs with
   | some (yr, r) => [((⟨yr⟩ : String), r)]
   | none => ([] : List (String × List Char))).flatMap
  fun (yrr : String × List Char) =>
  (litAlts '-' yrr.2).flatMap fun (r : List Char) =>
  (digitAlts 2 r).flatMap fun (mop : String × List Char) =>
  (litAlts '-' mop.2).flatMap fun (r : List Char) =>
  (digitAlts 2 r).flatMap fun (dyp : String × List Char) =>
  (match dyp.2 with
   | c :: r2 => if c = 'T' ∨ c = ' ' then [r2] else []
   | [] => ([] : List (List Char))).flatMap fun (r : List Char) =>
  (digitAlts 2 r).flatMap fun (hrp : String × List Char) =>
  (litAlts ':' hrp.2).flatMap fun (r : List Char) =>
  (digitAlts 2 r).flatMap fun (mip : String × List Char) =>
  (secAlts mip.2).flatMap fun (sp : (Option String × Option String) × List Char) =>
  ((tzAlts sp.2).map (fun (p : String × List Char) => (some p.1, p.2)) ++
     ([(none, sp.2)] : List (Option String × List Char))).filterMap
  fun (p : Option String × List Char) =>
    if p.2.isEmpty then
      some ⟨yrr.1, mop.1, dyp.1, hrp.1, mip.1, sp.1.1, sp.1.2, p.1⟩
    else none

/-- `_iso8601_datetime_re.match(value)`: the first full match, if any. -/
def isoMatch (s : String) : Option IsoGroups :=
  (isoMatches s.data).head?

/-- `int(groupstring)` for the digit-only captures. -/
def groupToNat (s : String) : Nat := digitsToNat s.data

/-- `utils.from_iso_datetime(value)` on a string: regex match, microsecond
right-padding, timezone resolution, then the `datetime` constructor. -/
def from_iso_datetime_str (s : String) : PRes DateTimeV :=
  match isoMatch s with
  | none => .exn (.valueError "Not a valid ISO8601-formatted datetime string")
  | some g =>
      let micro := g.microsecond.map ljust6
      let tzres : PRes (Option Tz) :=
        match g.tzinfo with
        | none => .ok none
        | some t =>
            if t = "Z" then .ok (some .utc)
            else
              let cs := t.data
              let offsetMins : Int :=
                if cs.length > 3 then (digitsToNat (cs.drop (cs.length - 2)) : Int) else 0
              let offset : Int := 60 * (digitsToNat ((cs.drop 1).take 2) : Int) + offsetMins
              let offset := if cs.head? = some '-' then -offset else offset
              match get_fixed_timezone offset with
              | .ok tz => .ok (some tz)
              | .exn e => .exn e
      match tzres with
      | .exn e => .exn e
      | .ok tz =>
          mkDatetime (groupToNat g.year) (groupToNat g.month) (groupToNat g.day)
            (groupToNat g.hour) (groupToNat g.minute)
            ((g.second.map groupToNat).getD 0) ((micro.map groupToNat).getD 0) tz

/-! ## Python values

Collections carry integer elements only: the pipeline never inspects
collection elements (it only tests emptiness, takes `len`, and converts —
which raises `TypeError` regardless of the elements), so this loses nothing
any claim depends on. -/

/-- A CPython `float`.  The payload of a finite float is kept as an exact
rational; IEEE-754 rounding is abstracted away (no theorem below depends on
a float's numeric value, only on which exception a conversion raises). -/
inductive PyFloat : Type where
  | fin (q : Rat)
  | inf
  | ninf
  | nan
deriving DecidableEq, Repr

inductive PyVal : Type where
  | none
  | bool (b : Bool)
  | int (n : Int)
  | float (f : PyFloat)
  | str (s : String)
  | list (xs : List Int)
  | tuple (xs : List Int)
  | dict (xs : List (Int × Int))
  | dec (d : Dec)
  | datetime (d : DateTimeV)
deriving DecidableEq, Repr

/-- Python `str.capitalize()`: first character upper-cased, the rest lowered
(ASCII range suffices for the identifiers involved). -/
def pyCapitalize (s : String) : String :=
  match s.data with
  | [] => ""
  | c :: r => ⟨c.toUpper :: r.map Char.toLower⟩

/-- `str(value)`.  Faithful for the variants any theorem evaluates
(`None`, booleans, integers, strings, finite decimals); the float and
datetime renderings are placeholders never observed by a theorem (they can
only flow into a format template with no matching placeholder). -/
def pyStr : PyVal → String
  | .none => "None"
  | .bool b => if b then "True" else "False"
  | .int n => toString n
  | .float (.fin q) => toString q
  | .float .inf => "inf"
  | .float .ninf => "-inf"
  | .float .nan => "nan"
  | .str s => s
  | .list xs => "[" ++ String.intercalate ", " (xs.map toString) ++ "]"
  | .tuple [] => "()"
  | .tuple [x] => "(" ++ toString x ++ ",)"
  | .tuple xs => "(" ++ String.intercalate ", " (xs.map toString) ++ ")"
  | .dict xs =>
      "\x7b" ++ String.intercalate ", " (xs.map fun p => toString p.1 ++ ": " ++ toString p.2) ++ "\x7d"
  | .dec d => d.toPyString
  | .datetime d =>
      ⟨natDigits d.year⟩ ++ "-" ++ pad2 d.month ++ "-" ++ pad2 d.day ++ " " ++
        pad2 d.hour ++ ":" ++ pad2 d.minute ++ ":" ++ pad2 d.second

/-- Membership in `EMPTY_VALUES = (None, "", [], (), {})` (membership is by
`==`; none of the other variants compares equal to a sentinel). -/
def pyIsEmpty : PyVal → Bool
  | .none => true
  | .str s => s = ""
  | .list xs => xs.isEmpty
  | .tuple xs => xs.isEmpty
  | .dict xs => xs.isEmpty
  | _ => false

/-- `len(value)`; objects without `__len__` raise `TypeError`. -/
def pyLen : PyVal → PRes Nat
  | .str s => .ok s.length
  | .list xs => .ok xs.length
  | .tuple xs => .ok xs.length
  | .dict xs => .ok xs.length
  | _ => .exn (.typeError "len")

/-- The integer-literal grammar accepted by `int(str)`: surrounding
whitespace, an optional sign, then digits (numeric-literal underscores are
not modelled). -/
def intLit (s : String) : Option Int :=
  let cs := stripChars s.data
  let (sg, r) := parseSign cs
  if ¬ r.isEmpty ∧ r.all Char.isDigit then some (sg * (digitsToNat r : Int)) else Option.none

/-- `int(value)`. -/
def pyIntConv : PyVal → PRes Int
  | .bool b => .ok (if b then 1 else 0)
  | .int n => .ok n
  | .float (.fin q) => .ok (q.num.tdiv q.den)
  | .float .inf => .exn .overflowError
  | .float .ninf => .exn .overflowError
  | .float .nan => .exn (.valueError "int-nan")
  | .str s =>
      match intLit s with
      | some n => .ok n
      | Option.none => .exn (.valueError "invalid literal for int")
  | .dec (.fin m e) => .ok (if 0 ≤ e then m * 10 ^ e.toNat else m.tdiv (10 ^ (-e).toNat))
  | .dec .posInf => .exn .overflowError
  | .dec .negInf => .exn .overflowError
  | .dec .nan => .exn (.valueError "int-nan")
  | _ => .exn (.typeError "int() argument")

/-- Scale a digit value by a power of ten into a rational. -/
def ratScale (c : Nat) (e : Int) : Rat :=
  if 0 ≤ e then (c : Rat) * (10 : Rat) ^ e.toNat else (c : Rat) / (10 : Rat) ^ (-e).toNat

/-- The float-literal grammar accepted by `float(str)`. -/
def floatLit (s : String) : Option PyFloat :=
  let cs := stripChars s.data
  let (sg, r) := parseSign cs
  let low := pyLower ⟨r⟩
  if low = "inf" ∨ low = "infinity" then some (if sg < 0 then .ninf else .inf)
  else if low = "nan" then some .nan
  else
    match parseDecBody r with
    | Option.none => Option.none
    | some (c, e, rest) =>
        match parseExpSuffix rest with
        | Option.none => Option.none
        | some (e2, r2) =>
            if r2.isEmpty then some (.fin ((sg : Rat) * ratScale c (e + e2))) else Option.none

/-- `float(value)` (`float(Decimal)` abstracts the rounding to double). -/
def pyFloatConv : PyVal → PRes PyFloat
  | .bool b => .ok (.fin (if b then 1 else 0))
  | .int n => .ok (.fin n)
  | .float f => .ok f
  | .str s =>
      match floatLit s with
      | some f => .ok f
      | Option.none => .exn (.valueError "could not convert string to float")
  | .dec (.fin m e) => .ok (.fin ((m : Rat) * ratScale 1 e))
  | .dec .posInf => .ok .inf
  | .dec .negInf => .ok .ninf
  | .dec .nan => .ok .nan
  | _ => .exn (.typeError "float() argument")

/-- View a value in the int/bool/float numeric tower. -/
def pyNumF : PyVal → Option PyFloat
  | .bool b => some (.fin (if b then 1 else 0))
  | .int n => some (.fin n)
  | .float f => some f
  | _ => Option.none

/-- `<` on the numeric tower (any comparison involving a NaN is false). -/
def pfLt : PyFloat → PyFloat → Bool
  | .nan, _ => false
  | _, .nan => false
  | .fin a, .fin b => a < b
  | .ninf, .ninf => false
  | .ninf, _ => true
  | _, .ninf => false
  | .inf, _ => false
  | .fin _, .inf => true

/-- Python `a < b` for the value pairs the code can compare; unsupported
pairs (in particular anything against `None`) raise `TypeError`. -/
def pyLtB : PyVal → PyVal → PRes Bool
  | .dec a, .dec b => Dec.lt a b
  | .dec a, .int n => Dec.lt a (.fin n 0)
  | .int n, .dec b => Dec.lt (.fin n 0) b
  | a, b =>
      match pyNumF a, pyNumF b with
      | some x, some y => .ok (pfLt x y)
      | _, _ => .exn (.typeError "not supported between instances")

/-- Python `a > b` (the reflected comparison). -/
def pyGtB (a b : PyVal) : PRes Bool := pyLtB b a

/-! ## Field declarations and runtime state (`src/fields.py`) -/

/-- `self.errors`: either the plain list from `__init__`, or the
`defaultdict(list)` that `__set__` installs — a dict, which has no
`append`, so recording into it raises `AttributeError`. -/
inductive ErrStore : Type where
  | pylist (msgs : List String)
  | pydict
deriving DecidableEq, Repr

/-- The mutable slots of a `Field` instance that the pipeline reads or
writes.  `self.owner` is reduced to the only attribute ever read from it,
`row_number` (`Option.none` models the `None` set in `__init__`). -/
structure FieldState : Type where
  errors : ErrStore
  is_error : Bool
  original_value : PyVal
  ownerRow : Option Int
deriving DecidableEq, Repr

/-- The slots right after `Field.__init__`. -/
def freshFieldState : FieldState :=
  { errors := .pylist [], is_error := false, original_value := .none, ownerRow := Option.none }

/-- Modelled from the spec: the host record instance.  The repository's own
record classes are not under `src/` (`models.py` holds only commented-out
demonstrations), so per the spec the instance exposes `row_number` (§6), a
`fields` attribute participating in the registry mechanics of §3 (absent
registry modelled as `Option.none`), and the per-attribute private storage
slots written by `__set__`. -/
structure Owner : Type where
  row_number : Int
  fields : Option (List (String × Nat))
  vals : List (String × PyVal)
deriving DecidableEq, Repr

/-- A record instance before any field assignment. -/
def freshOwner (row : Int) : Owner :=
  { row_number := row, fields := Option.none, vals := [] }

/-- Assoc-list lookup (`dict` access). -/
def assocFind {κ α : Type} [DecidableEq κ] : List (κ × α) → κ → Option α
  | [], _ => Option.none
  | (k2, v) :: r, k => if k2 = k then some v else assocFind r k

/-- Assoc-list store (`dict` update: overwrite in place, append new keys —
matching Python's insertion-order semantics). -/
def assocSet {κ α : Type} [DecidableEq κ] : List (κ × α) → κ → α → List (κ × α)
  | [], k, v => [(k, v)]
  | (k2, v2) :: r, k, v => if k2 = k then (k, v) :: r else (k2, v2) :: assocSet r k v

/-- The per-type parameters of the concrete field variants. -/
inductive Kind : Type where
  | intf (min_value max_value : PyVal)
  | floatf (min_value max_value : PyVal)
  | strf (min_len max_len : Option Int)
  | decf (places : Option Dec) (places_limit : Option Int) (rounding : Option Rounding)
      (min_value max_value : PyVal)
  | dtf
deriving DecidableEq, Repr

/-- The concrete class name, as interpolated into the missing-key message. -/
def kindClassName : Kind → String
  | .intf _ _ => "IntField"
  | .floatf _ _ => "FloatField"
  | .strf _ _ => "StrField"
  | .decf _ _ _ _ _ => "DecimalField"
  | .dtf => "DateTime"

/-- `constants.REQUIRED.message`. -/
def REQUIRED_MESSAGE : String := "Missing Value - {field} = : Row {row_number}."

/-- `constants.INCORRECT_FORMAT.message`. -/
def INCORRECT_FORMAT_MESSAGE : String :=
  "Incorrect Format - {field} = \"{value}\" : Row {row_number}."

/-- `constants.MISSING_ERROR_MESSAGE`. -/
def MISSING_ERROR_MESSAGE : String :=
  "ValidationError raised by `{class_name}`, but error key `{key}` does not exist in the `error_messages` dictionary."

/-- The resolved default message table: `Field.default_error_messages`,
overlaid (walking the reversed MRO) with `DateTime.default_error_messages`
for datetime fields. -/
def defaultErrorMessages : Kind → List (String × String)
  | .dtf =>
      [("required", REQUIRED_MESSAGE),
       ("format", "\"{input}\" cannot be formatted as a {obj_type}."),
       ("invalid", "Not a valid {obj_type}."),
       ("invalid_awareness", "Not a valid {awareness} {obj_type}.")]
  | _ => [("required", REQUIRED_MESSAGE), ("format", INCORRECT_FORMAT_MESSAGE)]

/-- A `Field` declaration after `__init__` and `__set_name__`: the
construction-time attributes the pipeline reads. -/
structure Cfg : Type where
  fid : Nat
  attr_name : String
  verbose_name : String
  required : Bool
  convert_to_none_strings : List String
  preprocessors : List (PyVal → PRes PyVal)
  validators : List (PyVal → PRes PyVal)
  error_messages : List (String × String)
  kind : Kind

/-- `Field.make_verbose_name`: the given label, or the attribute name with
underscores spaced and capitalized when the label is falsy. -/
def make_verbose_name (verbose : Option String) (attr : String) : String :=
  match verbose with
  | some v => if v ≠ "" then v else pyCapitalize ((attr.replace "_" " "))
  | Option.none => pyCapitalize ((attr.replace "_" " "))

/-- `Field.__init__` + `__set_name__`: note that the built-in token `"null"`
heads the convert-to-none list, and that instance `error_messages`
overrides are overlaid onto the class defaults. -/
def mkCfg (kind : Kind) (fid : Nat) (attr : String) (verbose : Option String)
    (required : Bool) (tokens : List String)
    (pre vals : List (PyVal → PRes PyVal))
    (overrides : List (String × String)) : Cfg :=
  { fid := fid, attr_name := attr,
    verbose_name := make_verbose_name verbose attr,
    required := required,
    convert_to_none_strings := "null" :: tokens,
    preprocessors := pre,
    validators := vals,
    error_messages := overrides.foldl (fun m p => assocSet m p.1 p.2) (defaultErrorMessages kind),
    kind := kind }

/-! ## Message formatting and `_make_error` -/

/-- Worker for `str.format(**kwargs)` with plain named placeholders (the
only form the templates use; `\x7b\x7b` escapes do not occur in any of
them).  A missing placeholder name raises `KeyError`.  The fuel starts at
the character count plus one and therefore never runs out. -/
def fmtGo (kw : List (String × String)) : Nat → List Char → PRes (List Char)
  | 0, _ => .ok []
  | _ + 1, [] => .ok []
  | f + 1, c :: r =>
      if c = '\x7b' then
        let name : List Char := r.takeWhile (fun c2 => c2 ≠ '\x7d')
        match r.dropWhile (fun c2 => c2 ≠ '\x7d') with
        | _ :: rest =>
            match assocFind kw (⟨name⟩ : String) with
            | some v =>
                match fmtGo kw f rest with
                | .ok out => .ok (v.data ++ out)
                | .exn e => .exn e
            | Option.none => .exn (.keyError ⟨name⟩)
        | [] => .exn (.valueError "unmatched brace")
      else
        match fmtGo kw f r with
        | .ok out => .ok (c :: out)
        | .exn e => .exn e

/-- `template.format(**kwargs)`. -/
def pyFormat (template : String) (kw : List (String × String)) : PRes String :=
  match fmtGo kw (template.data.length + 1) template.data with
  | .ok out => .ok ⟨out⟩
  | .exn e => .exn e

/-- The result of a pipeline step: the field state as left by the step's
mutations, plus the returned value or the propagating exception. -/
abbrev FRes (α : Type) := FieldState × PRes α

/-- `Field._make_error(key, **kwargs)`: add `row_number` (read off
`self.owner` — `AttributeError` if that is still `None`) and `field` to the
kwargs, fetch the template (falling back to the formatted
`MISSING_ERROR_MESSAGE` on a missing key), format it, then append to
`self.errors` and set `self.is_error`.  When `self.errors` is the
`defaultdict` installed by `__set__`, the append raises `AttributeError`
before the flag is set. -/
def _make_error (cfg : Cfg) (st : FieldState) (key : String)
    (kwargs : List (String × String)) : FRes Unit :=
  match st.ownerRow with
  | Option.none => (st, .exn (.attributeError "row_number"))
  | some row =>
      let kwargs := assocSet (assocSet kwargs "row_number" (toString row)) "field" cfg.verbose_name
      let tmpl : PRes String :=
        match assocFind cfg.error_messages key with
        | some t => .ok t
        | Option.none =>
            pyFormat MISSING_ERROR_MESSAGE
              [("class_name", kindClassName cfg.kind), ("key", key)]
      match tmpl with
      | .exn e => (st, .exn e)
      | .ok t =>
          match pyFormat t kwargs with
          | .exn e => (st, .exn e)
          | .ok m =>
              match st.errors with
              | .pydict => (st, .exn (.attributeError "append"))
              | .pylist l => ({ st with errors := .pylist (l ++ [m]), is_error := true }, .ok ())

/-! ## The pipeline (`Field._deserialize` and its stages) -/

/-- `Field.pre_process_value`: strings are stripped (empty becomes `None`),
then the *lower-cased* `str()` form is compared against the configured
convert-to-none tokens. -/
def pre_process_value (cfg : Cfg) (value : PyVal) : PyVal :=
  match value with
  | .str s =>
      let v1 : PyVal := if pyStrip s = "" then .none else .str (pyStrip s)
      if cfg.convert_to_none_strings.contains (pyLower (pyStr v1)) then .none else v1
  | v => v

/-- Loop body of `_run_preprocessors`: apply each preprocessor; a
`ValidationError` records a format-keyed error against the
pre-preprocessing value and breaks with `None`; other exceptions
propagate. -/
def runPreList (cfg : Cfg) (st : FieldState) (orig : PyVal) :
    List (PyVal → PRes PyVal) → PyVal → FRes PyVal
  | [], v => (st, .ok v)
  | p :: ps, v =>
      match p v with
      | .ok v2 => runPreList cfg st orig ps v2
      | .exn .validationError =>
          match _make_error cfg st "incorrect_format" [("value", pyStr orig)] with
          | (st2, .ok _) => (st2, .ok .none)
          | (st2, .exn e) => (st2, .exn e)
      | .exn e => (st, .exn e)

/-- `Field._run_preprocessors`: skipped entirely for empty-value sentinels. -/
def _run_preprocessors (cfg : Cfg) (st : FieldState) (value : PyVal) : FRes PyVal :=
  if pyIsEmpty value then (st, .ok value)
  else runPreList cfg st value cfg.preprocessors value

/-- `Field._validate_required`: fires on `None` only (the *raw* assigned
value is what the caller passes here). -/
def _validate_required (cfg : Cfg) (st : FieldState) (value : PyVal) : FRes Unit :=
  if value = .none ∧ cfg.required then
    _make_error cfg st "required" [("value", pyStr value)]
  else (st, .ok ())

/-- Loop body of `_run_validators`: a `ValidationError` records a
format-keyed error against `self.original_value` and the loop continues. -/
def runValList (cfg : Cfg) (st : FieldState) :
    List (PyVal → PRes PyVal) → PyVal → FRes Unit
  | [], _ => (st, .ok ())
  | f :: fs, v =>
      match f v with
      | .ok _ => runValList cfg st fs v
      | .exn .validationError =>
          match _make_error cfg st "incorrect_format" [("value", pyStr st.original_value)] with
          | (st2, .ok _) => runValList cfg st2 fs v
          | (st2, .exn e) => (st2, .exn e)
      | .exn e => (st, .exn e)

/-- `Field._run_validators`: skipped for empty-value sentinels. -/
def _run_validators (cfg : Cfg) (st : FieldState) (value : PyVal) : FRes Unit :=
  if pyIsEmpty value then (st, .ok ())
  else runValList cfg st cfg.validators value

/-- `from_iso_datetime(value)` on an arbitrary value: `re.match` raises
`TypeError` on a non-string argument. -/
def from_iso_py : PyVal → PRes DateTimeV
  | .str s => from_iso_datetime_str s
  | _ => .exn (.typeError "expected string or bytes-like object")

/-- The exception classes `DateTime.deserialize` catches. -/
def isCaughtParse : PyExn → Bool
  | .typeError _ => true
  | .attributeError _ => true
  | .valueError _ => true
  | _ => false

/-- The type-specific `deserialize` of each modelled variant.
`IntField`/`FloatField` catch only `ValueError`; `StrField` cannot fail;
`DecimalField` catches `ValueError` and `InvalidOperation`;
`DateTime.deserialize` (with the default `"iso"` format — the `rfc` and
`strptime` dispatch arms are exercised by no claim and not modelled)
evaluates `raise self._make_error("invalid", ...)`: since `_make_error`
returns `None` when it does not itself raise, the `raise` degenerates to a
`TypeError`. -/
def kindDeserialize (cfg : Cfg) (st : FieldState) (value : PyVal) : FRes PyVal :=
  match cfg.kind with
  | .intf _ _ =>
      match pyIntConv value with
      | .ok n => (st, .ok (.int n))
      | .exn (.valueError _) =>
          match _make_error cfg st "incorrect_format" [("value", pyStr st.original_value)] with
          | (st2, .ok _) => (st2, .ok .none)
          | (st2, .exn e) => (st2, .exn e)
      | .exn e => (st, .exn e)
  | .floatf _ _ =>
      match pyFloatConv value with
      | .ok f => (st, .ok (.float f))
      | .exn (.valueError _) =>
          match _make_error cfg st "incorrect_format" [("value", pyStr st.original_value)] with
          | (st2, .ok _) => (st2, .ok .none)
          | (st2, .exn e) => (st2, .exn e)
      | .exn e => (st, .exn e)
  | .strf _ _ => (st, .ok (.str (pyStrip (pyStr value))))
  | .decf _ _ _ _ _ =>
      match decFromString (pyStr value) with
      | .ok d => (st, .ok (.dec d))
      | .exn .invalidOperation =>
          match _make_error cfg st "incorrect_format" [("value", pyStr st.original_value)] with
          | (st2, .ok _) => (st2, .ok .none)
          | (st2, .exn e) => (st2, .exn e)
      | .exn (.valueError _) =>
          match _make_error cfg st "incorrect_format" [("value", pyStr st.original_value)] with
          | (st2, .ok _) => (st2, .ok .none)
          | (st2, .exn e) => (st2, .exn e)
      | .exn e => (st, .exn e)
  | .dtf =>
      match from_iso_py value with
      | .ok d => (st, .ok (.datetime d))
      | .exn e =>
          if isCaughtParse e then
            match _make_error cfg st "invalid" [("input", pyStr value), ("obj_type", "datetime")] with
            | (st2, .exn e2) => (st2, .exn e2)
            | (st2, .ok _) => (st2, .exn (.typeError "exceptions must derive from BaseException"))
          else (st, .exn e)

/-- The second `if` block of `NumberField.validate` — the maximum check.
The defect the spec flags: it compares `self.min_value < value`, so with a
maximum configured but no minimum it compares `None < value`
(`TypeError`). -/
def numberMaxCheck (minv maxv : PyVal) (cfg : Cfg) (st : FieldState) (value : PyVal) :
    FRes PyVal :=
  if value ≠ .none ∧ maxv ≠ .none then
    match pyLtB minv value with
    | .exn e => (st, .exn e)
    | .ok true =>
        match _make_error cfg st "incorrect_format" [("value", pyStr st.original_value)] with
        | (st2, .ok _) => (st2, .ok .none)
        | (st2, .exn e) => (st2, .exn e)
    | .ok false => (st, .ok value)
  else (st, .ok value)

/-- `NumberField.validate` (shared by `IntField` and `FloatField`): the
minimum branch compares `self.min_value > value` and degrades the local
value to `None`, then the maximum block runs on that local value. -/
def numberValidate (minv maxv : PyVal) (cfg : Cfg) (st : FieldState) (value : PyVal) :
    FRes PyVal :=
  if value ≠ .none ∧ minv ≠ .none then
    match pyGtB minv value with
    | .exn e => (st, .exn e)
    | .ok true =>
        match _make_error cfg st "incorrect_format" [("value", pyStr st.original_value)] with
        | (st2, .ok _) => numberMaxCheck minv maxv cfg st2 .none
        | (st2, .exn e) => (st2, .exn e)
    | .ok false => numberMaxCheck minv maxv cfg st value
  else numberMaxCheck minv maxv cfg st value

/-- `StrField.validate`: the length bounds, with the deliberate
raise-and-catch of `ValueError`; `len` on a length-less object raises
`TypeError`, which is not caught. -/
def strValidate (minLen maxLen : Option Int) (cfg : Cfg) (st : FieldState) (value : PyVal) :
    FRes Unit :=
  if value = .none then (st, .ok ())
  else
    let violated : PRes Bool :=
      match minLen with
      | some m =>
          match pyLen value with
          | .exn e => .exn e
          | .ok L => if (L : Int) < m then .ok true else
              match maxLen with
              | some M =>
                  match pyLen value with
                  | .exn e => .exn e
                  | .ok L2 => .ok ((L2 : Int) > M)
              | Option.none => .ok false
      | Option.none =>
          match maxLen with
          | some M =>
              match pyLen value with
              | .exn e => .exn e
              | .ok L2 => .ok ((L2 : Int) > M)
          | Option.none => .ok false
    match violated with
    | .exn e => (st, .exn e)
    | .ok true => _make_error cfg st "incorrect_format" [("value", pyStr st.original_value)]
    | .ok false => (st, .ok ())

/-- `value.as_tuple().exponent` followed by `abs(...)`: `AttributeError` on
`None` (and any non-decimal); on an infinity or NaN the exponent is the
letter `"F"`/`"n"`, so `abs` raises `TypeError`. -/
def pyAbsExp : PyVal → PRes Nat
  | .dec (.fin _ e) => .ok e.natAbs
  | .dec _ => .exn (.typeError "abs-str")
  | _ => .exn (.attributeError "as_tuple")

/-- `value.is_finite()`: `AttributeError` on `None` (and any non-decimal). -/
def pyIsFinite : PyVal → PRes Bool
  | .dec d => .ok d.isFinite
  | _ => .exn (.attributeError "is_finite")

/-- `value.to_eng_string()` (evaluated only on decimals). -/
def pyEng : PyVal → String
  | .dec d => d.toPyString
  | v => pyStr v

/-- `value.quantize(self.places, rounding=self.rounding)`; with
`rounding=None` the decimal context default `ROUND_HALF_EVEN` applies. -/
def pyQuantize (value : PyVal) (places : Dec) (rnd : Option Rounding) : PyVal :=
  match value with
  | .dec d => .dec (d.quantize places (rnd.getD .halfEven))
  | v => v

/-- `DecimalField._validate_place`: guarded by the *truthiness* of
`places_limit` (so a limit of `0` disables the check). -/
def _validate_place (pl : Option Int) (cfg : Cfg) (st : FieldState) (value : PyVal) :
    FRes PyVal :=
  match pl with
  | some lim =>
      if lim ≠ 0 then
        match pyAbsExp value with
        | .exn e => (st, .exn e)
        | .ok a =>
            if (a : Int) > lim then
              match _make_error cfg st "incorrect_format" [("value", pyEng value)] with
              | (st2, .ok _) => (st2, .ok .none)
              | (st2, .exn e) => (st2, .exn e)
            else (st, .ok value)
      else (st, .ok value)
  | Option.none => (st, .ok value)

/-- The min/max tail of `DecimalField.validate` (comparing the possibly
quantized local value against the bounds). -/
def decRangeCheck (minv maxv : PyVal) (cfg : Cfg) (st : FieldState) (value : PyVal) :
    FRes Unit :=
  if value = .none then (st, .ok ())
  else
    let violated : PRes Bool :=
      if minv ≠ .none then
        match pyLtB value minv with
        | .exn e => .exn e
        | .ok true => .ok true
        | .ok false =>
            if maxv ≠ .none then pyGtB value maxv else .ok false
      else if maxv ≠ .none then pyGtB value maxv else .ok false
    match violated with
    | .exn e => (st, .exn e)
    | .ok true => _make_error cfg st "incorrect_format" [("value", pyStr st.original_value)]
    | .ok false => (st, .ok ())

/-- `DecimalField.validate`: the result of `_validate_place` is discarded
(source line 313), and the quantized value exists only in the local
variable — the caller never sees it. -/
def decimalValidate (places : Option Dec) (pl : Option Int) (rnd : Option Rounding)
    (minv maxv : PyVal) (cfg : Cfg) (st : FieldState) (value : PyVal) : FRes Unit :=
  match _validate_place pl cfg st value with
  | (st, .exn e) => (st, .exn e)
  | (st, .ok _) =>
      match places with
      | some p =>
          match pyIsFinite value with
          | .exn e => (st, .exn e)
          | .ok true => decRangeCheck minv maxv cfg st (pyQuantize value p rnd)
          | .ok false => decRangeCheck minv maxv cfg st value
      | Option.none => decRangeCheck minv maxv cfg st value

/-- The type-specific `validate` hook (`Field.validate` is a no-op; the
return values of the number hook are discarded by `_validate`). -/
def kindValidate (cfg : Cfg) (st : FieldState) (value : PyVal) : FRes Unit :=
  match cfg.kind with
  | .intf mn mx =>
      match numberValidate mn mx cfg st value with
      | (st, .ok _) => (st, .ok ())
      | (st, .exn e) => (st, .exn e)
  | .floatf mn mx =>
      match numberValidate mn mx cfg st value with
      | (st, .ok _) => (st, .ok ())
      | (st, .exn e) => (st, .exn e)
  | .strf a b => strValidate a b cfg st value
  | .decf p pl r mn mx => decimalValidate p pl r mn mx cfg st value
  | .dtf => (st, .ok ())

/-- `Field._validate`: the type hook, then the configured validators. -/
def _validate (cfg : Cfg) (st : FieldState) (value : PyVal) : FRes PyVal :=
  match kindValidate cfg st value with
  | (st, .exn e) => (st, .exn e)
  | (st, .ok _) =>
      match _run_validators cfg st value with
      | (st, .exn e) => (st, .exn e)
      | (st, .ok _) => (st, .ok value)

/-- `Field._deserialize`: pre-process, preprocessors, required check
against the *raw* value, type-specific deserialize unless the *raw* value
is an empty sentinel, then validation; returns the deserialized output
(`_validate`'s return value is discarded). -/
def _deserialize (cfg : Cfg) (st : FieldState) (value : PyVal) : FRes PyVal :=
  match _run_preprocessors cfg st (pre_process_value cfg value) with
  | (st, .exn e) => (st, .exn e)
  | (st, .ok output) =>
      match _validate_required cfg st value with
      | (st, .exn e) => (st, .exn e)
      | (st, .ok _) =>
          match (if ¬ pyIsEmpty value then kindDeserialize cfg st output else (st, .ok output)) with
          | (st, .exn e) => (st, .exn e)
          | (st, .ok output) =>
              match _validate cfg st output with
              | (st, .exn e) => (st, .exn e)
              | (st, .ok _) => (st, .ok output)

/-- `Field.__set__`: install a fresh `defaultdict` as the error store, bind
the owner, remember the raw value, run the pipeline, then write the private
slot and the owner's field registry (first successful assignment creates
it).  A propagating exception leaves the owner untouched. -/
def dunderSet (cfg : Cfg) (st : FieldState) (o : Owner) (value : PyVal) :
    FieldState × Owner × PRes PyVal :=
  let st := { st with errors := .pydict, ownerRow := some o.row_number, original_value := value }
  match _deserialize cfg st value with
  | (st, .exn e) => (st, o, .exn e)
  | (st, .ok v) =>
      let o := { o with vals := assocSet o.vals ("_" ++ cfg.attr_name) v }
      let o :=
        match o.fields with
        | some m =>
            if ¬ m.isEmpty then { o with fields := some (assocSet m cfg.attr_name cfg.fid) }
            else { o with fields := some [(cfg.attr_name, cfg.fid)] }
        | Option.none => { o with fields := some [(cfg.attr_name, cfg.fid)] }
      (st, o, .ok v)

/-- A sequence of attribute assignments on one record instance, threading
each field's runtime state by its declaration id; an assignment that raises
aborts the sequence (the exception would propagate to the caller). -/
def assignSeq (o : Owner) (sts : List (Nat × FieldState)) :
    List (Cfg × PyVal) → PRes (Owner × List (Nat × FieldState))
  | [] => .ok (o, sts)
  | (cfg, v) :: rest =>
      match dunderSet cfg ((assocFind sts cfg.fid).getD freshFieldState) o v with
      | (st', o', .ok _) => assignSeq o' (assocSet sts cfg.fid st') rest
      | (_, _, .exn e) => .exn e

/-! ## Concrete declarations used by the claim theorems -/

/-- A field declaration with no optional arguments, of the given kind. -/
def plainCfg (k : Kind) (req : Bool) : Cfg :=
  mkCfg k 1 "age" Option.none req [] [] [] []

/-- The five modelled variants with no per-type bounds configured. -/
def plainKinds : List Kind :=
  [.intf .none .none, .floatf .none .none, .strf Option.none Option.none,
   .decf Option.none Option.none Option.none .none .none, .dtf]

def cfgIntReq : Cfg := plainCfg (.intf .none .none) true
def cfgIntOpt : Cfg := plainCfg (.intf .none .none) false
def cfgFloatReq : Cfg := plainCfg (.floatf .none .none) true
def cfgStrOpt : Cfg := mkCfg (.strf Option.none Option.none) 2 "name" Option.none false [] [] [] []

/-- `IntField(max_value=10)` (no minimum). -/
def cfgIntMax : Cfg := mkCfg (.intf .none (.int 10)) 6 "age" Option.none true [] [] [] []

/-- `IntField(min_value=10)`. -/
def cfgIntMin : Cfg := mkCfg (.intf (.int 10) .none) 7 "age" Option.none true [] [] [] []

/-- `DecimalField(places=Decimal("0.01"), rounding=ROUND_HALF_UP)`. -/
def cfgDecPlaces : Cfg :=
  mkCfg (.decf (some (.fin 1 (-2))) Option.none (some .halfUp) .none .none) 3 "price"
    Option.none true [] [] [] []

/-- `DecimalField(places_limit=2)`. -/
def cfgDecLimit : Cfg :=
  mkCfg (.decf Option.none (some 2) Option.none .none .none) 4 "price" Option.none true [] [] [] []

/-- `DateTime()` (default `"iso"` format). -/
def cfgDt : Cfg := mkCfg .dtf 5 "ts" Option.none true [] [] [] []

/-- A record instance at row 3 with no assignments yet. -/
def ow3 : Owner := freshOwner 3

/-- A field state whose error store is still the *list* from `__init__`
but with an owner already bound (the state in which the stage methods run
when invoked directly rather than through `__set__`). -/
def listState (orig : PyVal) : FieldState :=
  { errors := .pylist [], is_error := false, original_value := orig, ownerRow := some 3 }

/-- The message actually recorded for every `"incorrect_format"` call with
the default tables: the key is absent (the defaults hold `"format"`), so
the formatted `MISSING_ERROR_MESSAGE` placeholder is appended. -/
def missingKeyMessage (k : Kind) : String :=
  "ValidationError raised by `" ++ kindClassName k ++
    "`, but error key `incorrect_format` does not exist in the `error_messages` dictionary."

/-- The value left in the private slot when an empty-value sentinel is
assigned: `None` and the empty string pre-process to `None`; the empty
collections flow through unchanged (deserialization is skipped). -/
def sentinelStored (v : PyVal) : PyVal :=
  if v = .str "" then .none else v

/-- `name in owner registry` (the registry keys). -/
def ownerHasField (o : Owner) (name : String) : Bool :=
  match o.fields with
  | some m => (assocFind m name).isSome
  | Option.none => false

/-! ## State-preservation under the `__set__` error store

Once `__set__` has installed the `defaultdict` error store, no pipeline
stage can mutate the field state: the only mutating operation is
`_make_error`'s append, which raises `AttributeError` first.  These lemmas
make that invariant precise; they drive the idempotent-reset theorem. -/

theorem make_error_fst_pydict (cfg : Cfg) (st : FieldState) (key : String)
    (kw : List (String × String)) (h : st.errors = .pydict) :
    (_make_error cfg st key kw).1 = st := by
  unfold _make_error
  cases st.ownerRow with
  | none => rfl
  | some row =>
      dsimp only
      split
      · rfl
      · split
        · rfl
        · split
          · rfl
          · simp_all

theorem runPreList_fst_pydict (cfg : Cfg) (st : FieldState) (orig : PyVal)
    (ps : List (PyVal → PRes PyVal)) (v : PyVal) (h : st.errors = .pydict) :
    (runPreList cfg st orig ps v).1 = st := by
  induction ps generalizing v with
  | nil => rfl
  | cons p ps ih =>
      unfold runPreList
      cases hp : p v with
      | ok v2 => exact ih v2
      | exn e =>
          cases e with
          | validationError =>
              dsimp only
              have hm := make_error_fst_pydict cfg st "incorrect_format"
                [("value", pyStr orig)] h
              cases hme : _make_error cfg st "incorrect_format" [("value", pyStr orig)] with
              | mk st2 r =>
                  cases r with
                  | ok u => simpa [hme] using hm
                  | exn e2 => simpa [hme] using hm
          | typeError t => rfl
          | valueError t => rfl
          | attributeError t => rfl
          | keyError t => rfl
          | invalidOperation => rfl
          | overflowError => rfl
          | raisedError t => rfl

theorem run_preprocessors_fst_pydict (cfg : Cfg) (st : FieldState) (v : PyVal)
    (h : st.errors = .pydict) : (_run_preprocessors cfg st v).1 = st := by
  unfold _run_preprocessors
  split
  · rfl
  · exact runPreList_fst_pydict cfg st v cfg.preprocessors v h

theorem validate_required_fst_pydict (cfg : Cfg) (st : FieldState) (v : PyVal)
    (h : st.errors = .pydict) : (_validate_required cfg st v).1 = st := by
  unfold _validate_required
  split
  · exact make_error_fst_pydict cfg st "required" [("value", pyStr v)] h
  · rfl

theorem runValList_fst_pydict (cfg : Cfg) (st : FieldState)
    (fs : List (PyVal → PRes PyVal)) (v : PyVal) (h : st.errors = .pydict) :
    (runValList cfg st fs v).1 = st := by
  induction fs with
  | nil => rfl
  | cons f fs ih =>
      unfold runValList
      cases hf : f v with
      | ok u => exact ih
      | exn e =>
          cases e with
          | validationError =>
              dsimp only
              have hm := make_error_fst_pydict cfg st "incorrect_format"
                [("value", pyStr st.original_value)] h
              cases hme : _make_error cfg st "incorrect_format"
                  [("value", pyStr st.original_value)] with
              | mk st2 r =>
                  cases r with
                  | ok u =>
                      have h2 : st2 = st := by simpa [hme] using hm
                      subst h2
                      exact ih
                  | exn e2 => simpa [hme] using hm
          | typeError t => rfl
          | valueError t => rfl
          | attributeError t => rfl
          | keyError t => rfl
          | invalidOperation => rfl
          | overflowError => rfl
          | raisedError t => rfl

theorem run_validators_fst_pydict (cfg : Cfg) (st : FieldState) (v : PyVal)
    (h : st.errors = .pydict) : (_run_validators cfg st v).1 = st := by
  unfold _run_validators
  split
  · rfl
  · exact runValList_fst_pydict cfg st cfg.validators v h

theorem kindDeserialize_fst_pydict (cfg : Cfg) (st : FieldState) (v : PyVal)
    (h : st.errors = .pydict) : (kindDeserialize cfg st v).1 = st := by
  unfold kindDeserialize
  cases cfg.kind with
  | intf mn mx =>
      dsimp only
      cases pyIntConv v with
      | ok n => rfl
      | exn e =>
          cases e
          case valueError t =>
            dsimp only
            have hm := make_error_fst_pydict cfg st "incorrect_format"
              [("value", pyStr st.original_value)] h
            revert hm
            cases _make_error cfg st "incorrect_format" [("value", pyStr st.original_value)] with
            | mk st2 r =>
                intro hm
                cases r with
                | ok u => simpa using hm
                | exn e2 => simpa using hm
          all_goals rfl
  | floatf mn mx =>
      dsimp only
      cases pyFloatConv v with
      | ok f => rfl
      | exn e =>
          cases e
          case valueError t =>
            dsimp only
            have hm := make_error_fst_pydict cfg st "incorrect_format"
              [("value", pyStr st.original_value)] h
            revert hm
            cases _make_error cfg st "incorrect_format" [("value", pyStr st.original_value)] with
            | mk st2 r =>
                intro hm
                cases r with
                | ok u => simpa using hm
                | exn e2 => simpa using hm
          all_goals rfl
  | strf a b => rfl
  | decf p pl r mn mx =>
      dsimp only
      cases decFromString (pyStr v) with
      | ok d => rfl
      | exn e =>
          cases e
          case valueError t =>
            dsimp only
            have hm := make_error_fst_pydict cfg st "incorrect_format"
              [("value", pyStr st.original_value)] h
            revert hm
            cases _make_error cfg st "incorrect_format" [("value", pyStr st.original_value)] with
            | mk st2 r2 =>
                intro hm
                cases r2 with
                | ok u => simpa using hm
                | exn e2 => simpa using hm
          case invalidOperation =>
            dsimp only
            have hm := make_error_fst_pydict cfg st "incorrect_format"
              [("value", pyStr st.original_value)] h
            revert hm
            cases _make_error cfg st "incorrect_format" [("value", pyStr st.original_value)] with
            | mk st2 r2 =>
                intro hm
                cases r2 with
                | ok u => simpa using hm
                | exn e2 => simpa using hm
          all_goals rfl
  | dtf =>
      dsimp only
      cases from_iso_py v with
      | ok d => rfl
      | exn e =>
          dsimp only
          split
          · have hm := make_error_fst_pydict cfg st "invalid"
              [("input", pyStr v), ("obj_type", "datetime")] h
            revert hm
            cases _make_error cfg st "invalid" [("input", pyStr v), ("obj_type", "datetime")] with
            | mk st2 r2 =>
                intro hm
                cases r2 with
                | ok u => simpa using hm
                | exn e2 => simpa using hm
          · rfl

theorem numberMaxCheck_fst_pydict (mn mx : PyVal) (cfg : Cfg) (st : FieldState) (v : PyVal)
    (h : st.errors = .pydict) : (numberMaxCheck mn mx cfg st v).1 = st := by
  unfold numberMaxCheck
  split
  · cases pyLtB mn v with
    | exn e => rfl
    | ok b =>
        cases b with
        | false => rfl
        | true =>
            dsimp only
            have hm := make_error_fst_pydict cfg st "incorrect_format"
              [("value", pyStr st.original_value)] h
            revert hm
            cases _make_error cfg st "incorrect_format" [("value", pyStr st.original_value)] with
            | mk st2 r =>
                intro hm
                cases r with
                | ok u => simpa using hm
                | exn e2 => simpa using hm
  · rfl

theorem numberValidate_fst_pydict (mn mx : PyVal) (cfg : Cfg) (st : FieldState) (v : PyVal)
    (h : st.errors = .pydict) : (numberValidate mn mx cfg st v).1 = st := by
  unfold numberValidate
  split
  · cases pyGtB mn v with
    | exn e => rfl
    | ok b =>
        cases b with
        | false => exact numberMaxCheck_fst_pydict mn mx cfg st v h
        | true =>
            dsimp only
            have hm := make_error_fst_pydict cfg st "incorrect_format"
              [("value", pyStr st.original_value)] h
            revert hm
            cases _make_error cfg st "incorrect_format" [("value", pyStr st.original_value)] with
            | mk st2 r =>
                intro hm
                cases r with
                | ok u =>
                    have h2 : st2 = st := by simpa using hm
                    rw [h2]
                    exact numberMaxCheck_fst_pydict mn mx cfg st .none h
                | exn e2 => simpa using hm
  · exact numberMaxCheck_fst_pydict mn mx cfg st v h

theorem strValidate_fst_pydict (a b : Option Int) (cfg : Cfg) (st : FieldState) (v : PyVal)
    (h : st.errors = .pydict) : (strValidate a b cfg st v).1 = st := by
  unfold strValidate
  split
  · rfl
  · dsimp only
    split
    · rfl
    · exact make_error_fst_pydict cfg st "incorrect_format"
        [("value", pyStr st.original_value)] h
    · rfl

theorem validate_place_fst_pydict (pl : Option Int) (cfg : Cfg) (st : FieldState) (v : PyVal)
    (h : st.errors = .pydict) : (_validate_place pl cfg st v).1 = st := by
  unfold _validate_place
  cases pl with
  | none => rfl
  | some lim =>
      dsimp only
      split
      · cases pyAbsExp v with
        | exn e => rfl
        | ok a =>
            dsimp only
            split
            · have hm := make_error_fst_pydict cfg st "incorrect_format"
                [("value", pyEng v)] h
              revert hm
              cases _make_error cfg st "incorrect_format" [("value", pyEng v)] with
              | mk st2 r =>
                  intro hm
                  cases r with
                  | ok u => simpa using hm
                  | exn e2 => simpa using hm
            · rfl
      · rfl

theorem decRangeCheck_fst_pydict (mn mx : PyVal) (cfg : Cfg) (st : FieldState) (v : PyVal)
    (h : st.errors = .pydict) : (decRangeCheck mn mx cfg st v).1 = st := by
  unfold decRangeCheck
  split
  · rfl
  · dsimp only
    split
    · rfl
    · exact make_error_fst_pydict cfg st "incorrect_format"
        [("value", pyStr st.original_value)] h
    · rfl

theorem decimalValidate_fst_pydict (p : Option Dec) (pl : Option Int) (r : Option Rounding)
    (mn mx : PyVal) (cfg : Cfg) (st : FieldState) (v : PyVal)
    (h : st.errors = .pydict) : (decimalValidate p pl r mn mx cfg st v).1 = st := by
  unfold decimalValidate
  have hvp := validate_place_fst_pydict pl cfg st v h
  revert hvp
  cases _validate_place pl cfg st v with
  | mk st1 res =>
      intro hvp
      have h1 : st1 = st := by simpa using hvp
      subst h1
      cases res with
      | exn e => rfl
      | ok u =>
          dsimp only
          cases p with
          | none => exact decRangeCheck_fst_pydict mn mx cfg st1 v h
          | some pp =>
              dsimp only
              cases pyIsFinite v with
              | exn e => rfl
              | ok fin =>
                  cases fin with
                  | true => exact decRangeCheck_fst_pydict mn mx cfg st1 _ h
                  | false => exact decRangeCheck_fst_pydict mn mx cfg st1 v h

theorem kindValidate_fst_pydict (cfg : Cfg) (st : FieldState) (v : PyVal)
    (h : st.errors = .pydict) : (kindValidate cfg st v).1 = st := by
  unfold kindValidate
  cases cfg.kind with
  | intf mn mx =>
      dsimp only
      have hnv := numberValidate_fst_pydict mn mx cfg st v h
      revert hnv
      cases numberValidate mn mx cfg st v with
      | mk st1 r =>
          intro hnv
          cases r with
          | ok u => simpa using hnv
          | exn e => simpa using hnv
  | floatf mn mx =>
      dsimp only
      have hnv := numberValidate_fst_pydict mn mx cfg st v h
      revert hnv
      cases numberValidate mn mx cfg st v with
      | mk st1 r =>
          intro hnv
          cases r with
          | ok u => simpa using hnv
          | exn e => simpa using hnv
  | strf a b => exact strValidate_fst_pydict a b cfg st v h
  | decf p pl r mn mx => exact decimalValidate_fst_pydict p pl r mn mx cfg st v h
  | dtf => rfl

theorem validate_fst_pydict (cfg : Cfg) (st : FieldState) (v : PyVal)
    (h : st.errors = .pydict) : (_validate cfg st v).1 = st := by
  unfold _validate
  have hkv := kindValidate_fst_pydict cfg st v h
  revert hkv
  cases kindValidate cfg st v with
  | mk st1 r =>
      intro hkv
      have h1 : st1 = st := by simpa using hkv
      subst h1
      cases r with
      | exn e => rfl
      | ok u =>
          dsimp only
          have hrv := run_validators_fst_pydict cfg st1 v h
          revert hrv
          cases _run_validators cfg st1 v with
          | mk st2 r2 =>
              intro hrv
              cases r2 with
              | exn e => simpa using hrv
              | ok u2 => simpa using hrv

theorem deserialize_fst_pydict (cfg : Cfg) (st : FieldState) (v : PyVal)
    (h : st.errors = .pydict) : (_deserialize cfg st v).1 = st := by
  unfold _deserialize
  have hrp := run_preprocessors_fst_pydict cfg st (pre_process_value cfg v) h
  revert hrp
  cases _run_preprocessors cfg st (pre_process_value cfg v) with
  | mk st1 r1 =>
      intro hrp
      have h1 : st1 = st := by simpa using hrp
      subst h1
      cases r1 with
      | exn e => rfl
      | ok output =>
          dsimp only
          have hvr := validate_required_fst_pydict cfg st1 v h
          revert hvr
          cases _validate_required cfg st1 v with
          | mk st2 r2 =>
              intro hvr
              have h2 : st2 = st1 := by simpa using hvr
              subst h2
              cases r2 with
              | exn e => rfl
              | ok u =>
                  dsimp only
                  have hkd : ((if ¬ pyIsEmpty v then kindDeserialize cfg st2 output
                      else (st2, PRes.ok output)) : FRes PyVal).1 = st2 := by
                    split
                    · exact kindDeserialize_fst_pydict cfg st2 output h
                    · rfl
                  revert hkd
                  cases (if ¬ pyIsEmpty v then kindDeserialize cfg st2 output
                      else (st2, PRes.ok output)) with
                  | mk st3 r3 =>
                      intro hkd
                      have h3 : st3 = st2 := by simpa using hkd
                      subst h3
                      cases r3 with
                      | exn e => rfl
                      | ok out2 =>
                          dsimp only
                          have hv := validate_fst_pydict cfg st3 out2 h
                          revert hv
                          cases _validate cfg st3 out2 with
                          | mk st4 r4 =>
                              intro hv
                              cases r4 with
                              | exn e => simpa using hv
                              | ok u2 => simpa using hv

/-- The field state `__set__` leaves behind, whatever the outcome: the reset
slots (fresh dict store, owner bound, raw value captured) — no pipeline stage
can mutate them further once the store is the dict. -/
theorem dunderSet_fieldstate (cfg : Cfg) (st : FieldState) (o : Owner) (v : PyVal) :
    (dunderSet cfg st o v).1 =
      { st with errors := .pydict, original_value := v, ownerRow := some o.row_number } := by
  simp only [dunderSet]
  have hd := deserialize_fst_pydict cfg
    { st with errors := .pydict, ownerRow := some o.row_number, original_value := v } v rfl
  revert hd
  cases _deserialize cfg
      { st with errors := .pydict, ownerRow := some o.row_number, original_value := v } v with
  | mk s r =>
      intro hd
      cases r with
      | exn e => simpa using hd
      | ok w => simpa using hd

/-- `__set__` never changes the owner's row number. -/
theorem dunderSet_rowNumber (cfg : Cfg) (st : FieldState) (o : Owner) (v : PyVal) :
    (dunderSet cfg st o v).2.1.row_number = o.row_number := by
  simp only [dunderSet]
  cases _deserialize cfg
      { st with errors := .pydict, ownerRow := some o.row_number, original_value := v } v with
  | mk s r =>
      cases r with
      | exn e => rfl
      | ok w =>
          dsimp only
          split
          · split <;> rfl
          · rfl

/-- The observable outcome of `__set__` — resulting field state and returned
value or exception — depends on the incoming field state only through its
`is_error` flag, and on the owner only through its row number: every other
slot is overwritten before being read. -/
theorem dunderSet_indep (cfg : Cfg) (st st' : FieldState) (o o' : Owner) (v : PyVal)
    (hie : st.is_error = st'.is_error) (hrow : o.row_number = o'.row_number) :
    (dunderSet cfg st o v).1 = (dunderSet cfg st' o' v).1 ∧
      (dunderSet cfg st o v).2.2 = (dunderSet cfg st' o' v).2.2 := by
  obtain ⟨e1, i1, ov1, r1⟩ := st
  obtain ⟨e2, i2, ov2, r2⟩ := st'
  change i1 = i2 at hie
  subst hie
  simp only [dunderSet]
  rw [hrow]
  cases _deserialize cfg ⟨.pydict, i1, v, some o'.row_number⟩ v with
  | mk s r => cases r <;> exact ⟨rfl, rfl⟩

/-- C1: for every field declaration and pair of consecutive assignments, the
reset at the top of `__set__` makes the second assignment's resulting error
list (a fresh, empty store), error flag and original value — and the
returned value or exception — identical to those of assigning the second
value alone to a fresh field: nothing of the first assignment's errors,
flag or original value leaks.  (The code does not explicitly clear
`is_error`, but no completed assignment can ever set it: the append into
the dict store raises before the flag assignment, so the flag is `false`
throughout and the reset invariant holds as claimed.) -/
theorem claim_C1_idempotent_reset (cfg : Cfg) (o : Owner) (v1 v2 : PyVal) :
    (dunderSet cfg (dunderSet cfg freshFieldState o v1).1
        (dunderSet cfg freshFieldState o v1).2.1 v2).1
      = (dunderSet cfg freshFieldState o v2).1 ∧
    (dunderSet cfg (dunderSet cfg freshFieldState o v1).1
        (dunderSet cfg freshFieldState o v1).2.1 v2).2.2
      = (dunderSet cfg freshFieldState o v2).2.2 ∧
    (dunderSet cfg (dunderSet cfg freshFieldState o v1).1
        (dunderSet cfg freshFieldState o v1).2.1 v2).1.errors = .pydict ∧
    (dunderSet cfg (dunderSet cfg freshFieldState o v1).1
        (dunderSet cfg freshFieldState o v1).2.1 v2).1.is_error = false ∧
    (dunderSet cfg (dunderSet cfg freshFieldState o v1).1
        (dunderSet cfg freshFieldState o v1).2.1 v2).1.original_value = v2 := by
  have h1 : (dunderSet cfg freshFieldState o v1).1.is_error = false := by
    rw [dunderSet_fieldstate]
    rfl
  have hrow := dunderSet_rowNumber cfg freshFieldState o v1
  have hind := dunderSet_indep cfg (dunderSet cfg freshFieldState o v1).1 freshFieldState
    (dunderSet cfg freshFieldState o v1).2.1 o v2 (by rw [h1]; rfl) hrow
  refine ⟨hind.1, hind.2, ?_, ?_, ?_⟩
  · rw [hind.1, dunderSet_fieldstate]
  · rw [hind.1, dunderSet_fieldstate]
    rfl
  · rw [hind.1, dunderSet_fieldstate]

/-- Inversion for the empty-value sentinels. -/
theorem pyIsEmpty_cases (v : PyVal) (h : pyIsEmpty v = true) :
    v = .none ∨ v = .str "" ∨ v = .list [] ∨ v = .tuple [] ∨ v = .dict [] := by
  cases v with
  | none => exact Or.inl rfl
  | str s =>
      have : s = "" := by simpa [pyIsEmpty] using h
      subst this
      exact Or.inr (Or.inl rfl)
  | list xs =>
      have : xs = [] := by simpa [pyIsEmpty] using h
      subst this
      exact Or.inr (Or.inr (Or.inl rfl))
  | tuple xs =>
      have : xs = [] := by simpa [pyIsEmpty] using h
      subst this
      exact Or.inr (Or.inr (Or.inr (Or.inl rfl)))
  | dict xs =>
      have : xs = [] := by simpa [pyIsEmpty] using h
      subst this
      exact Or.inr (Or.inr (Or.inr (Or.inr rfl)))
  | bool b => simp [pyIsEmpty] at h
  | int n => simp [pyIsEmpty] at h
  | float f => simp [pyIsEmpty] at h
  | dec d => simp [pyIsEmpty] at h
  | datetime d => simp [pyIsEmpty] at h

/-- C2 (counterexample): the empty string is an empty-value sentinel, and
after pre-processing its value is `None`; yet assigning it to a *required*
integer field records no "required" error at all — the required check tests
the raw value, which is `""`, not `None` — and the assignment completes,
storing `None` with an empty error store and a clear flag.  This refutes
"assigning it to a required field records exactly one required error" and
the claim that the check fires exactly when the pre-processed value is
`None`. -/
theorem claim_C2_counterexample :
    pre_process_value cfgIntReq (.str "") = .none ∧
    cfgIntReq.required = true ∧
    dunderSet cfgIntReq freshFieldState ow3 (.str "") =
      ({ errors := .pydict, is_error := false, original_value := .str "", ownerRow := some 3 },
       { row_number := 3, fields := some [("age", 1)], vals := [("_age", PyVal.none)] },
       .ok .none) := by
  refine ⟨by decide, by decide, by decide⟩

/-- C2 (amended): for every modelled field kind, assigning an empty-value
sentinel to a non-required field records no errors and stores the
*pre-processed sentinel* — `None` for `None` and for the empty string, the
sentinel itself for the empty list/tuple/dict.  The required check tests
the *raw* value: it fires exactly on raw `None`, and when it fires the
recording helper raises `AttributeError` (the error store is the dict
installed by `__set__`), so the assignment raises instead of recording a
"required" error; for every other sentinel a required field behaves exactly
like a non-required one. -/
theorem claim_C2_amended (k : Kind) (hk : k ∈ plainKinds) (v : PyVal)
    (hv : pyIsEmpty v = true) :
    (dunderSet (plainCfg k false) freshFieldState ow3 v).2.2 = .ok (sentinelStored v) ∧
    (dunderSet (plainCfg k false) freshFieldState ow3 v).1.errors = .pydict ∧
    (dunderSet (plainCfg k false) freshFieldState ow3 v).1.is_error = false ∧
    (v = .none →
      (dunderSet (plainCfg k true) freshFieldState ow3 v).2.2 = .exn (.attributeError "append")) ∧
    (v ≠ .none →
      dunderSet (plainCfg k true) freshFieldState ow3 v
        = dunderSet (plainCfg k false) freshFieldState ow3 v) := by
  simp only [plainKinds, List.mem_cons, List.mem_singleton] at hk
  rcases pyIsEmpty_cases v hv with h | h | h | h | h <;> subst h <;>
    rcases hk with h | h | h | h | h | h <;> first | (subst h; decide) | cases h

/-- C2 (witness). -/
theorem claim_C2_amended_witness :
    ((Kind.intf .none .none) ∈ plainKinds ∧ pyIsEmpty PyVal.none = true) ∧
    ((dunderSet (plainCfg (.intf .none .none) false) freshFieldState ow3 PyVal.none).2.2
        = .ok (sentinelStored PyVal.none) ∧
      (dunderSet (plainCfg (.intf .none .none) false) freshFieldState ow3 PyVal.none).1.errors
        = .pydict ∧
      (dunderSet (plainCfg (.intf .none .none) false) freshFieldState ow3 PyVal.none).1.is_error
        = false ∧
      (PyVal.none = .none →
        (dunderSet (plainCfg (.intf .none .none) true) freshFieldState ow3 PyVal.none).2.2
          = .exn (.attributeError "append")) ∧
      (PyVal.none ≠ .none →
        dunderSet (plainCfg (.intf .none .none) true) freshFieldState ow3 PyVal.none
          = dunderSet (plainCfg (.intf .none .none) false) freshFieldState ow3 PyVal.none)) :=
  ⟨⟨by decide, by decide⟩,
   claim_C2_amended (.intf .none .none) (by decide) PyVal.none (by decide)⟩

/-- C3 (counterexample): with the default convert-to-none token `"null"`,
assigning the matching string `"null"` to a plain string field stores the
string `"None"` — because the deserialize-skip guard tests the *raw* value,
`StrField.deserialize` receives the pre-processed `None` and `str(None)`
is `"None"` — while assigning `None` itself stores `None`.  The two
assignments are observably different, refuting "behaves identically to
assigning None". -/
theorem claim_C3_counterexample :
    (dunderSet cfgStrOpt freshFieldState ow3 (.str "null")).2.2 = .ok (.str "None") ∧
    (dunderSet cfgStrOpt freshFieldState ow3 PyVal.none).2.2 = .ok PyVal.none ∧
    PyVal.str "None" ≠ PyVal.none := by
  refine ⟨by decide, by decide, by decide⟩

/-- C3 (amended): the trimmed value is *lower-cased* before the verbatim
comparison with the configured tokens; on a match the value is
pre-processed to `None`, but — because the deserialize-skip guard tests the
raw value — the type-specific `deserialize` still runs on that `None`
instead of being skipped.  So assigning a matching token differs from
assigning `None`: a string field stores the string `"None"`
(`str(None).strip()`), and an integer field raises `TypeError` out of the
assignment (`int(None)`). -/
theorem claim_C3_amended (s : String) (h1 : pyStrip s ≠ "")
    (h2 : (["null"] : List String).contains (pyLower (pyStrip s)) = true) :
    pre_process_value cfgStrOpt (.str s) = .none ∧
    (dunderSet cfgStrOpt freshFieldState ow3 (.str s)).2.2 = .ok (.str "None") ∧
    (dunderSet cfgIntOpt freshFieldState ow3 (.str s)).2.2
      = .exn (.typeError "int() argument") := by
  have hs : ¬ (s = "") := fun he => h1 (by rw [he]; rfl)
  have hvs : pyIsEmpty (.str s) = false := by simp [pyIsEmpty, hs]
  have hpreS : pre_process_value cfgStrOpt (.str s) = .none := by
    simp only [pre_process_value, if_neg h1]
    have hc : pyLower (pyStr (.str (pyStrip s))) ∈ cfgStrOpt.convert_to_none_strings := by
      simpa [cfgStrOpt, mkCfg, pyStr] using h2
    simp [hc]
  have hpreI : pre_process_value cfgIntOpt (.str s) = .none := by
    simp only [pre_process_value, if_neg h1]
    have hc : pyLower (pyStr (.str (pyStrip s))) ∈ cfgIntOpt.convert_to_none_strings := by
      simpa [cfgIntOpt, plainCfg, mkCfg, pyStr] using h2
    simp [hc]
  refine ⟨hpreS, ?_, ?_⟩
  · simp only [dunderSet, _deserialize]
    rw [hpreS, hvs]
    rfl
  · simp only [dunderSet, _deserialize]
    rw [hpreI, hvs]
    rfl

/-- C3 (witness). -/
theorem claim_C3_amended_witness :
    (pyStrip "NULL" ≠ "" ∧
      (["null"] : List String).contains (pyLower (pyStrip "NULL")) = true) ∧
    (pre_process_value cfgStrOpt (.str "NULL") = .none ∧
      (dunderSet cfgStrOpt freshFieldState ow3 (.str "NULL")).2.2 = .ok (.str "None") ∧
      (dunderSet cfgIntOpt freshFieldState ow3 (.str "NULL")).2.2
        = .exn (.typeError "int() argument")) :=
  ⟨⟨by decide, by decide⟩, claim_C3_amended "NULL" (by decide) (by decide)⟩

/-- C4 (counterexample): `IntField(max_value=10)` with no minimum, assigned
`"20"`.  The deserialized value 20 exceeds the configured maximum, but no
"format" error is recorded: the maximum branch evaluates
`self.min_value < value` with `min_value = None`, so the comparison raises
`TypeError` and the assignment aborts with an empty error store. -/
theorem claim_C4_counterexample :
    dunderSet cfgIntMax freshFieldState ow3 (.str "20") =
      ({ errors := .pydict, is_error := false, original_value := .str "20", ownerRow := some 3 },
       ow3, .exn (.typeError "not supported between instances")) := by decide

/-- C4 (amended): in the shared numeric range check, invoked with the
pre-`__set__` list error store: (1) a value below a configured minimum
records one format-keyed error (the missing-key placeholder, since the
default tables have no `incorrect_format` entry) and the check's local
value becomes `None`; (2) the maximum branch compares the *minimum* bound
against the value, so with both bounds configured it records whenever the
value strictly exceeds the minimum (in particular whenever it exceeds the
maximum when that is at least the minimum); (3) with a maximum configured
but no minimum it raises `TypeError`; and (4) through the assignment
pipeline even the minimum-branch recording raises `AttributeError` against
the dict error store. -/
theorem claim_C4_amended :
    (∀ (mx : PyVal) (l : List String) (b : Bool) (ov : PyVal) (m v : Int), v < m →
      numberValidate (.int m) mx cfgIntMin
          { errors := .pylist l, is_error := b, original_value := ov, ownerRow := some 3 }
          (.int v)
        = ({ errors := .pylist (l ++ [missingKeyMessage (.intf .none .none)]), is_error := true,
             original_value := ov, ownerRow := some 3 }, .ok .none)) ∧
    (∀ (l : List String) (b : Bool) (ov : PyVal) (m M v : Int), m < v →
      numberValidate (.int m) (.int M) cfgIntMin
          { errors := .pylist l, is_error := b, original_value := ov, ownerRow := some 3 }
          (.int v)
        = ({ errors := .pylist (l ++ [missingKeyMessage (.intf .none .none)]), is_error := true,
             original_value := ov, ownerRow := some 3 }, .ok .none)) ∧
    (∀ (l : List String) (b : Bool) (ov : PyVal) (M v : Int),
      numberValidate .none (.int M) cfgIntMin
          { errors := .pylist l, is_error := b, original_value := ov, ownerRow := some 3 }
          (.int v)
        = ({ errors := .pylist l, is_error := b, original_value := ov, ownerRow := some 3 },
           .exn (.typeError "not supported between instances"))) ∧
    dunderSet cfgIntMin freshFieldState ow3 (.str "5") =
      ({ errors := .pydict, is_error := false, original_value := .str "5", ownerRow := some 3 },
       ow3, .exn (.attributeError "append")) := by
  refine ⟨?_, ?_, ?_, by decide⟩
  · intro mx l b ov m v h
    have hgt : pyGtB (PyVal.int m) (PyVal.int v) = .ok true := by
      have hr : pyGtB (PyVal.int m) (PyVal.int v) = .ok (decide ((v : Rat) < (m : Rat))) := rfl
      rw [hr]
      exact congrArg PRes.ok (decide_eq_true (by exact_mod_cast h))
    unfold numberValidate
    rw [hgt]
    rfl
  · intro l b ov m M v h
    have hgt : pyGtB (PyVal.int m) (PyVal.int v) = .ok false := by
      have hr : pyGtB (PyVal.int m) (PyVal.int v) = .ok (decide ((v : Rat) < (m : Rat))) := rfl
      rw [hr]
      exact congrArg PRes.ok (decide_eq_false (by exact_mod_cast not_lt_of_gt h))
    have hlt : pyLtB (PyVal.int m) (PyVal.int v) = .ok true := by
      have hr : pyLtB (PyVal.int m) (PyVal.int v) = .ok (decide ((m : Rat) < (v : Rat))) := rfl
      rw [hr]
      exact congrArg PRes.ok (decide_eq_true (by exact_mod_cast h))
    unfold numberValidate
    rw [hgt]
    unfold numberMaxCheck
    rw [hlt]
    rfl
  · intro l b ov M v
    rfl

/-- C4 (witness). -/
theorem claim_C4_amended_witness :
    ((2 : Int) < 10 ∧ (10 : Int) < 20) ∧
    numberValidate (.int 10) .none cfgIntMin
        { errors := .pylist [], is_error := false, original_value := .str "2", ownerRow := some 3 }
        (.int 2)
      = ({ errors := .pylist [missingKeyMessage (.intf .none .none)], is_error := true,
           original_value := .str "2", ownerRow := some 3 }, .ok .none) ∧
    numberValidate (.int 10) (.int 15) cfgIntMin
        { errors := .pylist [], is_error := false, original_value := .str "20", ownerRow := some 3 }
        (.int 20)
      = ({ errors := .pylist [missingKeyMessage (.intf .none .none)], is_error := true,
           original_value := .str "20", ownerRow := some 3 }, .ok .none) ∧
    numberValidate .none (.int 10) cfgIntMin
        { errors := .pylist [], is_error := false, original_value := .str "20", ownerRow := some 3 }
        (.int 20)
      = ({ errors := .pylist [], is_error := false, original_value := .str "20",
           ownerRow := some 3 }, .exn (.typeError "not supported between instances")) :=
  ⟨⟨by decide, by decide⟩,
   claim_C4_amended.1 .none [] false (.str "2") 10 2 (by decide),
   claim_C4_amended.2.1 [] false (.str "20") 10 15 20 (by decide),
   claim_C4_amended.2.2.1 [] false (.str "20") 10 20⟩

/-- C5: `DecimalField(places=Decimal("0.01"), rounding=ROUND_HALF_UP)`
assigned `"1.005"` stores `Decimal("1.005")`, *not* the quantized 1.01 the
spec promises: `validate` computes the quantized value (shown in the second
conjunct to be 1.01) into a local variable whose value the pipeline
discards (`_validate`'s result is unused at source line 208).  And with a
`places_limit` configured, an over-precise value does not record a "format"
error referencing the plain string form — the recording attempt appends to
the dict error store and the assignment aborts with `AttributeError`. -/
theorem claim_C5_quantize_discarded :
    dunderSet cfgDecPlaces freshFieldState ow3 (.str "1.005") =
      ({ errors := .pydict, is_error := false, original_value := .str "1.005",
         ownerRow := some 3 },
       { row_number := 3, fields := some [("price", 3)],
         vals := [("_price", PyVal.dec (.fin 1005 (-3)))] },
       .ok (.dec (.fin 1005 (-3)))) ∧
    Dec.quantize (.fin 1005 (-3)) (.fin 1 (-2)) .halfUp = .fin 101 (-2) ∧
    PyVal.dec (.fin 1005 (-3)) ≠ PyVal.dec (.fin 101 (-2)) ∧
    dunderSet cfgDecLimit freshFieldState ow3 (.str "1.0055") =
      ({ errors := .pydict, is_error := false, original_value := .str "1.0055",
         ownerRow := some 3 },
       ow3, .exn (.attributeError "append")) := by
  refine ⟨by decide, by decide, by decide, by decide⟩

/-- C6: a DateTime (iso) field assigned an unparseable string.  The parse
attempt does raise a caught `ValueError` (first conjunct), and processing
is terminated by a propagating exception — but that exception is the
`AttributeError` raised inside `_make_error` while appending the formatted
"invalid" message to the dict error store, not an exception carrying the
"invalid" error (and with a list store, `raise self._make_error(...)`
would raise `None`, a `TypeError`).  No error is recorded. -/
theorem claim_C6_invalid_raise :
    from_iso_py (.str "garbage")
      = .exn (.valueError "Not a valid ISO8601-formatted datetime string") ∧
    dunderSet cfgDt freshFieldState ow3 (.str "garbage") =
      ({ errors := .pydict, is_error := false, original_value := .str "garbage",
         ownerRow := some 3 },
       ow3, .exn (.attributeError "append")) ∧
    PyExn.attributeError "append" ≠ PyExn.raisedError "Not a valid datetime." := by
  refine ⟨by decide, by decide, by decide⟩

/-- C7: the ISO-8601 parser maps `"2023-01-15T10:30:00Z"` to the UTC
timestamp 2023-01-15 10:30:00+00:00; maps explicit numeric offsets to a
fixed-offset timezone of `sign * (hours*60 + minutes)` minutes named
`"+HHMM"`/`"-HHMM"` (shown for `+05:30` and `-08:30`); maps an input with
no timezone suffix to a naive result; and fails on a non-matching string
with the dedicated "Not a valid ISO8601-formatted datetime string"
condition. -/
theorem claim_C7_iso_parse :
    from_iso_datetime_str "2023-01-15T10:30:00Z"
      = .ok ⟨2023, 1, 15, 10, 30, 0, 0, some .utc⟩ ∧
    from_iso_datetime_str "2023-01-15T10:30:00+05:30"
      = .ok ⟨2023, 1, 15, 10, 30, 0, 0, some (.fixed (5 * 60 + 30) "+0530")⟩ ∧
    from_iso_datetime_str "2023-01-15T10:30:00-08:30"
      = .ok ⟨2023, 1, 15, 10, 30, 0, 0, some (.fixed (-(8 * 60 + 30)) "-0830")⟩ ∧
    from_iso_datetime_str "2023-01-15T10:30:00"
      = .ok ⟨2023, 1, 15, 10, 30, 0, 0, Option.none⟩ ∧
    from_iso_datetime_str "garbage"
      = .exn (.valueError "Not a valid ISO8601-formatted datetime string") := by
  refine ⟨by decide, by decide, by decide, by decide, by decide⟩

/-- C10 (counterexample): a DecimalField with `places_limit=2` assigned the
invalid literal `"abc"` does raise `AttributeError` out of the assignment —
but not from `as_tuple()` on `None` in the validate hook: execution never
reaches `validate`, because the deserialization failure's own
error-recording append onto the dict store raises first. -/
theorem claim_C10_counterexample :
    dunderSet cfgDecLimit freshFieldState ow3 (.str "abc") =
      ({ errors := .pydict, is_error := false, original_value := .str "abc",
         ownerRow := some 3 },
       ow3, .exn (.attributeError "append")) ∧
    PyExn.attributeError "append" ≠ PyExn.attributeError "as_tuple" := by
  refine ⟨by decide, by decide⟩

/-- C10 (amended): the behaviour the claim describes does occur one layer
down: when `_deserialize` runs with the *list* error store (as before any
`__set__`), the failed `Decimal("abc")` records the format-keyed
missing-key placeholder and yields `None`, the type-specific validate hook
is then still invoked on that `None`, and it crashes with `AttributeError`
— at `as_tuple()` when `places_limit` is configured, at `is_finite()` when
a quantization precision is configured — instead of completing with the
recorded error.  Through `__set__` itself the `AttributeError` arises
earlier, in the recording append (see the counterexample). -/
theorem claim_C10_validate_on_none :
    _deserialize cfgDecLimit (listState (.str "abc")) (.str "abc") =
      ({ errors := .pylist [missingKeyMessage (.decf Option.none Option.none Option.none .none .none)],
         is_error := true, original_value := .str "abc", ownerRow := some 3 },
       .exn (.attributeError "as_tuple")) ∧
    _deserialize cfgDecPlaces (listState (.str "abc")) (.str "abc") =
      ({ errors := .pylist [missingKeyMessage (.decf Option.none Option.none Option.none .none .none)],
         is_error := true, original_value := .str "abc", ownerRow := some 3 },
       .exn (.attributeError "is_finite")) := by
  refine ⟨by decide, by decide⟩

/-! ## The field registry (C8) -/

/-- Keys after a dict update: the stored key, plus everything already
present. -/
theorem assocFind_assocSet_isSome {κ α : Type} [DecidableEq κ]
    (m : List (κ × α)) (k k2 : κ) (v : α) :
    (assocFind (assocSet m k v) k2).isSome = true ↔
      (k2 = k ∨ (assocFind m k2).isSome = true) := by
  induction m with
  | nil =>
      by_cases h : k = k2
      · simp [assocSet, assocFind, h]
      · have h4 : ¬ k2 = k := fun hh => h hh.symm
        simp [assocSet, assocFind, h, h4]
  | cons hd tl ih =>
      obtain ⟨k1, v1⟩ := hd
      by_cases h1 : k1 = k
      · by_cases h2 : k = k2
        · subst h2
          simp [assocSet, assocFind, h1]
        · have h3 : ¬ k1 = k2 := fun hh => h2 (h1.symm.trans hh)
          have h4 : ¬ k2 = k := fun hh => h2 hh.symm
          simp [assocSet, assocFind, h1, h2, h3, h4]
      · by_cases h2 : k1 = k2
        · have h3 : ¬ k2 = k := fun hh => h1 (h2.trans hh)
          simp [assocSet, assocFind, h1, h2, h3]
        · simp [assocSet, assocFind, h1, h2, ih]

/-- A successful `__set__` adds exactly its own attribute name to the
owner's registry (creating the registry on the first assignment). -/
theorem dunderSet_ok_registry (cfg : Cfg) (st : FieldState) (o : Owner) (v : PyVal)
    (st' : FieldState) (o' : Owner) (w : PyVal)
    (h : dunderSet cfg st o v = (st', o', .ok w)) (name : String) :
    ownerHasField o' name = true ↔ (name = cfg.attr_name ∨ ownerHasField o name = true) := by
  simp only [dunderSet] at h
  revert h
  cases _deserialize cfg
      { st with errors := .pydict, ownerRow := some o.row_number, original_value := v } v with
  | mk s r =>
      cases r with
      | exn e => intro h; simp at h
      | ok w2 =>
          intro h
          dsimp only at h
          cases hf : o.fields with
          | none =>
              rw [hf] at h
              dsimp only at h
              injection h with h1 h2
              injection h2 with h3 h4
              subst h3
              by_cases hn : cfg.attr_name = name
              · simp [ownerHasField, assocFind, hn, hf]
              · simp [ownerHasField, assocFind, hn, hf, Ne.symm hn]
          | some m =>
              rw [hf] at h
              by_cases hm : m.isEmpty
              · have hm2 : m = [] := by simpa using hm
                subst hm2
                simp only [List.isEmpty_nil, not_true_eq_false, if_false, Bool.not_true] at h
                injection h with h1 h2
                injection h2 with h3 h4
                subst h3
                by_cases hn : cfg.attr_name = name
                · simp [ownerHasField, assocFind, hn, hf]
                · simp [ownerHasField, assocFind, hn, hf, Ne.symm hn]
              · simp only [hm, Bool.not_false, if_true] at h
                injection h with h1 h2
                injection h2 with h3 h4
                subst h3
                simp only [ownerHasField, hf]
                exact assocFind_assocSet_isSome m cfg.attr_name name cfg.fid

/-- The registry after a successful assignment sequence holds a name iff it
was assigned in the sequence or already registered before. -/
theorem assignSeq_registry (steps : List (Cfg × PyVal)) :
    ∀ (o : Owner) (sts : List (Nat × FieldState)) (o2 : Owner)
      (sts2 : List (Nat × FieldState)),
      assignSeq o sts steps = .ok (o2, sts2) →
      ∀ name, ownerHasField o2 name = true ↔
        (name ∈ steps.map (fun p => p.1.attr_name) ∨ ownerHasField o name = true) := by
  induction steps with
  | nil =>
      intro o sts o2 sts2 h name
      simp only [assignSeq] at h
      obtain ⟨h1, h2⟩ : o = o2 ∧ sts = sts2 := by
        cases h
        exact ⟨rfl, rfl⟩
      subst h1
      simp
  | cons step rest ih =>
      intro o sts o2 sts2 h name
      obtain ⟨cfg, v⟩ := step
      simp only [assignSeq] at h
      revert h
      cases hds : dunderSet cfg ((assocFind sts cfg.fid).getD freshFieldState) o v with
      | mk st1 pr =>
          obtain ⟨o1, r⟩ := pr
          cases r with
          | exn e => intro h; simp at h
          | ok w =>
              intro h
              have hreg := dunderSet_ok_registry cfg _ o v st1 o1 w hds name
              have hih := ih o1 (assocSet sts cfg.fid st1) o2 sts2 h name
              rw [hih, hreg]
              simp only [List.map_cons, List.mem_cons]
              tauto

/-- C8: starting from a fresh record instance (registry absent), after any
sequence of completed assignments the field registry exists exactly when
the sequence is nonempty and contains precisely the attribute names
assigned at least once — the first assignment creates it, later
assignments add or overwrite their own entry. -/
theorem claim_C8_registry (row : Int) (steps : List (Cfg × PyVal)) (o2 : Owner)
    (sts2 : List (Nat × FieldState))
    (h : assignSeq (freshOwner row) [] steps = .ok (o2, sts2)) (name : String) :
    ownerHasField o2 name = true ↔ name ∈ steps.map (fun p => p.1.attr_name) := by
  have := assignSeq_registry steps (freshOwner row) [] o2 sts2 h name
  simpa [ownerHasField, freshOwner] using this

/-- The record state after the witness sequence. -/
def c8owner : Owner :=
  { row_number := 3, fields := some [("age", 1), ("name", 2)],
    vals := [("_age", PyVal.int 5), ("_name", PyVal.str "joe")] }

/-- The field states after the witness sequence. -/
def c8states : List (Nat × FieldState) :=
  [(1, { errors := .pydict, is_error := false, original_value := .str "5", ownerRow := some 3 }),
   (2, { errors := .pydict, is_error := false, original_value := .str "joe", ownerRow := some 3 })]

/-- C8 (witness). -/
theorem claim_C8_registry_witness :
    assignSeq (freshOwner 3) [] [(cfgIntOpt, .str "5"), (cfgStrOpt, .str "joe")]
      = .ok (c8owner, c8states) ∧
    (ownerHasField c8owner "age" = true ↔
      "age" ∈ ([(cfgIntOpt, PyVal.str "5"), (cfgStrOpt, PyVal.str "joe")].map
        (fun p => p.1.attr_name))) :=
  ⟨by decide, claim_C8_registry 3 _ c8owner c8states (by decide) "age"⟩

/-- C9: in `IntField.deserialize`/`FloatField.deserialize` only `ValueError`
is caught: (1)/(2) any input whose conversion raises `TypeError` propagates
that exception unchanged out of `deserialize`; (3)/(4) an input whose
conversion raises `ValueError` takes the recording path — with a list error
store, exactly one format-keyed message (the missing-key placeholder) is
appended and the result is `None`; and (5)-(7) through a full assignment
the `TypeError` (e.g. from `int(None)` after `"null"` pre-processes to
`None`, or from `int([1])`) propagates out of `__set__` uncaught. -/
theorem claim_C9_only_valueerror_caught :
    (∀ (st : FieldState) (v : PyVal) (t : String), pyIntConv v = .exn (.typeError t) →
      kindDeserialize cfgIntReq st v = (st, .exn (.typeError t))) ∧
    (∀ (st : FieldState) (v : PyVal) (t : String), pyFloatConv v = .exn (.typeError t) →
      kindDeserialize cfgFloatReq st v = (st, .exn (.typeError t))) ∧
    (∀ (l : List String) (b : Bool) (ov v : PyVal) (t : String),
      pyIntConv v = .exn (.valueError t) →
      kindDeserialize cfgIntReq
          { errors := .pylist l, is_error := b, original_value := ov, ownerRow := some 3 } v
        = ({ errors := .pylist (l ++ [missingKeyMessage (.intf .none .none)]), is_error := true,
             original_value := ov, ownerRow := some 3 }, .ok .none)) ∧
    (∀ (l : List String) (b : Bool) (ov v : PyVal) (t : String),
      pyFloatConv v = .exn (.valueError t) →
      kindDeserialize cfgFloatReq
          { errors := .pylist l, is_error := b, original_value := ov, ownerRow := some 3 } v
        = ({ errors := .pylist (l ++ [missingKeyMessage (.floatf .none .none)]), is_error := true,
             original_value := ov, ownerRow := some 3 }, .ok .none)) ∧
    (dunderSet cfgIntReq freshFieldState ow3 (.str "null")).2.2
      = .exn (.typeError "int() argument") ∧
    (dunderSet cfgIntReq freshFieldState ow3 (.list [1])).2.2
      = .exn (.typeError "int() argument") ∧
    (dunderSet cfgFloatReq freshFieldState ow3 (.str "null")).2.2
      = .exn (.typeError "float() argument") := by
  refine ⟨?_, ?_, ?_, ?_, by decide, by decide, by decide⟩
  · intro st v t h
    unfold kindDeserialize
    rw [show cfgIntReq.kind = Kind.intf .none .none from rfl]
    rw [h]
  · intro st v t h
    unfold kindDeserialize
    rw [show cfgFloatReq.kind = Kind.floatf .none .none from rfl]
    rw [h]
  · intro l b ov v t h
    unfold kindDeserialize
    rw [show cfgIntReq.kind = Kind.intf .none .none from rfl]
    rw [h]
    rfl
  · intro l b ov v t h
    unfold kindDeserialize
    rw [show cfgFloatReq.kind = Kind.floatf .none .none from rfl]
    rw [h]
    rfl

/-- C9 (witness). -/
theorem claim_C9_witness :
    (pyIntConv PyVal.none = .exn (.typeError "int() argument") ∧
      pyFloatConv PyVal.none = .exn (.typeError "float() argument") ∧
      pyIntConv (.str "abc") = .exn (.valueError "invalid literal for int") ∧
      pyFloatConv (.str "abc") = .exn (.valueError "could not convert string to float")) ∧
    (kindDeserialize cfgIntReq freshFieldState PyVal.none
        = (freshFieldState, .exn (.typeError "int() argument")) ∧
      kindDeserialize cfgFloatReq freshFieldState PyVal.none
        = (freshFieldState, .exn (.typeError "float() argument")) ∧
      kindDeserialize cfgIntReq
          { errors := .pylist [], is_error := false, original_value := .str "abc",
            ownerRow := some 3 } (.str "abc")
        = ({ errors := .pylist [missingKeyMessage (.intf .none .none)], is_error := true,
             original_value := .str "abc", ownerRow := some 3 }, .ok .none) ∧
      kindDeserialize cfgFloatReq
          { errors := .pylist [], is_error := false, original_value := .str "abc",
            ownerRow := some 3 } (.str "abc")
        = ({ errors := .pylist [missingKeyMessage (.floatf .none .none)], is_error := true,
             original_value := .str "abc", ownerRow := some 3 }, .ok .none)) :=
  ⟨⟨by decide, by decide, by decide, by decide⟩,
   claim_C9_only_valueerror_caught.1 freshFieldState PyVal.none "int() argument" (by decide),
   claim_C9_only_valueerror_caught.2.1 freshFieldState PyVal.none "float() argument" (by decide),
   claim_C9_only_valueerror_caught.2.2.1 [] false (.str "abc") (.str "abc")
     "invalid literal for int" (by decide),
   claim_C9_only_valueerror_caught.2.2.2.1 [] false (.str "abc") (.str "abc")
     "could not convert string to float" (by decide)⟩

end Pyxl
